import Mathlib

/-! # Sigfox abstraction layer (`src/sigfox.c`): transmission control and region policy

A shallow embedding of the functions of `sigfox.c`.

* The process-wide record `itsdk_state` and the static pointer `__api` are an explicit
  `State` value that every operation receives and returns.
* Calls that leave the file (radio driver `sx1276_sigfox_*`, protocol stack `SIGFOX_API_*`,
  error reporting, `log_error`) are recorded, in program order, as a list of `Event`s returned
  next to the result; the values those calls return come from an `Env`. Every external call,
  the error report `ITSDK_ERROR_REPORT` included, is taken to return to its caller.
* Constants and enumerators whose declarations live in headers outside `src/` are the fields
  of `Consts`; nothing about their numeric values is assumed unless a theorem says so.
* `uint8_t`, `uint16_t` values are `Nat`, `int8_t` values are `Int`; conversions between them
  are the explicit functions `toUint8` and `toInt8`.
-/

namespace Sigfox

/-! ## Result enumerations -/

/-- Result codes of the init family (`itsdk_sigfox_init_t`). -/
inductive itsdk_sigfox_init_t where
  | SIGFOX_INIT_SUCESS
  | SIGFOX_INIT_NOCHANGE
  | SIGFOX_INIT_PARAMSERR
  | SIGFOX_INIT_FAILED
  deriving DecidableEq, Repr

/-- Result codes of the transmit family (`itdsk_sigfox_txrx_t`). -/
inductive itdsk_sigfox_txrx_t where
  | SIGFOX_TRANSMIT_SUCESS
  | SIGFOX_TXRX_NO_DOWNLINK
  | SIGFOX_TXRX_DOWLINK_RECEIVED
  | SIGFOX_ERROR_PARAMS
  | SIGFOX_TXRX_ERROR
  deriving DecidableEq, Repr

open itsdk_sigfox_init_t itdsk_sigfox_txrx_t

/-! ## Constants declared outside `src/` -/

/-- Header constants used by `sigfox.c`. Their declarations are not part of `src/`, so they are
parameters of the embedding. `encryptionConfigured` is the value of the preprocessor test
`ITSDK_SIGFOX_ENCRYPTION & __PAYLOAD_ENCRYPT_SIGFOX`. -/
structure Consts where
  SIGFOX_RCZ1 : Nat
  SIGFOX_RCZ2 : Nat
  SIGFOX_RCZ3C : Nat
  SIGFOX_RCZ4 : Nat
  SIGFOX_RCZ5 : Nat
  SIGFOX_UNSUPPORTED : Nat
  LPWAN_REGION_EU868 : Nat
  LPWAN_REGION_MEA868 : Nat
  LPWAN_REGION_US915 : Nat
  LPWAN_REGION_SA915 : Nat
  LPWAN_REGION_JP923 : Nat
  LPWAN_REGION_AU915 : Nat
  LPWAN_REGION_SA920 : Nat
  LPWAN_REGION_AP920 : Nat
  LPWAN_REGION_KR920 : Nat
  LPWAN_REGION_IN865 : Nat
  SIGFOX_DEFAULT_POWER : Int
  SIGFOX_POWER_DEFAULT : Int
  SIGFOX_SPEED_DEFAULT : Nat
  SIGFOX_SPEED_100 : Nat
  SIGFOX_SPEED_600 : Nat
  SFX_ERR_NONE : Nat
  SFX_ERR_INT_GET_RECEIVED_FRAMES_TIMEOUT : Nat
  PAYLOAD_ENCRYPT_SIGFOX : Nat
  encryptionConfigured : Bool
  SIGFOX_OOB_SERVICE : Nat
  SIGFOX_OOB_RC_SYNC : Nat
  SFX_OOB_SERVICE : Nat
  SFX_OOB_RC_SYNC : Nat
  SFX_DBPSK_100BPS : Nat
  SFX_DBPSK_600BPS : Nat
  ITSDK_ERROR_SIGFOX_RCZ_NOTSUPPORTED : Nat
  ITSDK_ERROR_SIGFOX_OOB_NOTSUPPORTED : Nat
  ACTIV_NETWORK_SIGFOX : Nat

/-- The ten region constants are the case labels of one `switch` in
`itsdk_sigfox_getRczFromRegion`; C requires case labels to be pairwise distinct. -/
def Consts.regionsDistinct (K : Consts) : Prop :=
  [K.LPWAN_REGION_EU868, K.LPWAN_REGION_MEA868, K.LPWAN_REGION_US915, K.LPWAN_REGION_SA915,
   K.LPWAN_REGION_JP923, K.LPWAN_REGION_AU915, K.LPWAN_REGION_SA920, K.LPWAN_REGION_AP920,
   K.LPWAN_REGION_KR920, K.LPWAN_REGION_IN865].Nodup

/-- The five operating zones are the case labels of the `switch` in `_itsdk_sigfox_getTxPower`
(pairwise distinct), none of them is the value `SIGFOX_UNSUPPORTED`, and none is `0`, the value
`_itsdk_sigfox_getRc` returns for "no zone" and `sigfox_setup` tests with `rcz == 0`. -/
def Consts.zonesValid (K : Consts) : Prop :=
  [K.SIGFOX_RCZ1, K.SIGFOX_RCZ2, K.SIGFOX_RCZ3C, K.SIGFOX_RCZ4, K.SIGFOX_RCZ5,
   K.SIGFOX_UNSUPPORTED].Nodup ∧
  [K.SIGFOX_RCZ1, K.SIGFOX_RCZ2, K.SIGFOX_RCZ3C, K.SIGFOX_RCZ4, K.SIGFOX_RCZ5, 0].Nodup

instance (K : Consts) : Decidable K.regionsDistinct := by
  unfold Consts.regionsDistinct; infer_instance

instance (K : Consts) : Decidable K.zonesValid := by
  unfold Consts.zonesValid; infer_instance

/-- One concrete assignment of the header constants, used to evaluate the embedding on
concrete inputs. Zones and regions are pairwise distinct, the power sentinel is `-1`, the
protocol-stack "no error" code is `0x00` and its downlink-timeout code `0x7E`. -/
def sampleConsts : Consts where
  SIGFOX_RCZ1 := 1
  SIGFOX_RCZ2 := 2
  SIGFOX_RCZ3C := 4
  SIGFOX_RCZ4 := 5
  SIGFOX_RCZ5 := 6
  SIGFOX_UNSUPPORTED := 255
  LPWAN_REGION_EU868 := 0x0001
  LPWAN_REGION_MEA868 := 0x0400
  LPWAN_REGION_US915 := 0x0002
  LPWAN_REGION_SA915 := 0x0100
  LPWAN_REGION_JP923 := 0x0080
  LPWAN_REGION_AU915 := 0x0020
  LPWAN_REGION_SA920 := 0x0200
  LPWAN_REGION_AP920 := 0x0800
  LPWAN_REGION_KR920 := 0x0010
  LPWAN_REGION_IN865 := 0x0040
  SIGFOX_DEFAULT_POWER := -1
  SIGFOX_POWER_DEFAULT := -1
  SIGFOX_SPEED_DEFAULT := 0
  SIGFOX_SPEED_100 := 100
  SIGFOX_SPEED_600 := 600
  SFX_ERR_NONE := 0x00
  SFX_ERR_INT_GET_RECEIVED_FRAMES_TIMEOUT := 0x7E
  PAYLOAD_ENCRYPT_SIGFOX := 1
  encryptionConfigured := false
  SIGFOX_OOB_SERVICE := 0
  SIGFOX_OOB_RC_SYNC := 1
  SFX_OOB_SERVICE := 1
  SFX_OOB_RC_SYNC := 2
  SFX_DBPSK_100BPS := 0
  SFX_DBPSK_600BPS := 1
  ITSDK_ERROR_SIGFOX_RCZ_NOTSUPPORTED := 0xD0000001
  ITSDK_ERROR_SIGFOX_OOB_NOTSUPPORTED := 0xD0000002
  ACTIV_NETWORK_SIGFOX := 1

/-! ## Machine integers -/

/-- Conversion to `uint8_t`: reduction modulo 256. -/
def toUint8 (i : Int) : Nat := (i % 256).toNat

/-- Conversion of a `uint8_t` value to `int8_t` (two's complement). -/
def toInt8 (n : Nat) : Int :=
  if n % 256 < 128 then ((n % 256 : Nat) : Int) else ((n % 256 : Nat) : Int) - 256

/-! ## Program state, external calls -/

/-- The capability table `sigfox_api_t`. A function pointer is `none` when it is `NULL`;
otherwise it carries the value the function stores through its out-parameter. -/
structure sigfox_api_t where
  getCurrentRegion : Option Nat
  getDeviceId : Option Nat
  getInitialPac : Option (List Nat)
  getDeviceKey : Option (List Nat)
  getCurrentSeqId : Option Nat
  setCurrentSeqId : Option Unit
  getTxPower : Option Int
  deriving DecidableEq, Repr

/-- The mutable globals of the file: `itsdk_state.activeNetwork`, the four fields of
`itsdk_state.sigfox`, and the static pointer `__api` (`none` is `NULL`). `current_power` holds
the `uint8_t` that `itsdk_sigfox_setTxPower_ext` stores into it. -/
structure State where
  activeNetwork : Nat
  initialized : Bool
  rcz : Nat
  current_power : Nat
  current_speed : Nat
  __api : Option sigfox_api_t
  deriving DecidableEq, Repr

/-- A call that leaves `sigfox.c`, with its arguments. -/
inductive Event where
  | sx1276_sigfox_init
  | sx1276_sigfox_deinit
  | sx1276_sigfox_setPower (power : Nat)
  | SIGFOX_API_send_frame (buf : List Nat) (len : Nat) (dwn : Option Nat) (rep : Nat)
      (ack : Bool)
  | SIGFOX_API_send_bit (bitValue : Bool) (dwn : Option Nat) (rep : Nat) (ack : Bool)
  | SIGFOX_API_send_outofband (oob : Nat)
  | SIGFOX_API_start_continuous_transmission (frequency : Nat) (rate : Nat)
  | SIGFOX_API_set_rc_sync_period (numOfFrame : Nat)
  | ITSDK_ERROR_REPORT (error : Nat) (value : Nat)
  | log_error_encryption_must_be_set
  | log_error_encryption_cant_be_set
  deriving DecidableEq, Repr

/-- Calls into the radio driver (`sx1276_sigfox_*`). -/
def Event.isRadioDriver : Event → Bool
  | .sx1276_sigfox_init => true
  | .sx1276_sigfox_deinit => true
  | .sx1276_sigfox_setPower _ => true
  | _ => false

/-- Calls into the protocol stack (`SIGFOX_API_*`). -/
def Event.isProtocolStack : Event → Bool
  | .SIGFOX_API_send_frame _ _ _ _ _ => true
  | .SIGFOX_API_send_bit _ _ _ _ => true
  | .SIGFOX_API_send_outofband _ => true
  | .SIGFOX_API_start_continuous_transmission _ _ => true
  | .SIGFOX_API_set_rc_sync_period _ => true
  | _ => false

/-- Calls to the uplink send primitives `SIGFOX_API_send_frame` / `SIGFOX_API_send_bit`. -/
def Event.isSend : Event → Bool
  | .SIGFOX_API_send_frame _ _ _ _ _ => true
  | .SIGFOX_API_send_bit _ _ _ _ => true
  | _ => false

/-- A hardware action: a radio-driver call or a protocol-stack call. -/
def Event.isHardware (e : Event) : Bool := e.isRadioDriver || e.isProtocolStack

/-- What the world outside the file answers. `itsdk_sigfox_getRc` is the zone answered by the
function of that name called by `_itsdk_sigfox_getSpeed`; it is not defined in `sigfox.c`. `indeterminate` is the
value a caller observes from `_itsdk_sigfox_getSpeed`, whose body has no `return` statement.
The three send primitives answer with a 16-bit status word. -/
structure Env where
  itsdk_sigfox_getRc : Nat
  indeterminate : Nat
  SIGFOX_API_send_frame : List Nat → Nat → Option Nat → Nat → Bool → Nat
  SIGFOX_API_send_bit : Bool → Option Nat → Nat → Bool → Nat
  SIGFOX_API_send_outofband : Nat → Nat
  sx1276_sigfox_init : itsdk_sigfox_init_t

/-- Result of running a function of the file: returned value, globals afterwards and the
external calls it made, oldest first. -/
structure Out (α : Type) where
  ret : α
  st : State
  trace : List Event

/-! ## Region policy -/

/-- The function `itsdk_sigfox_getRczFromRegion(region, &rcz)`: returns the status and the
zone written to `*rcz`. -/
def itsdk_sigfox_getRczFromRegion (K : Consts) (region : Nat) : itsdk_sigfox_init_t × Nat :=
  let rcz :=
    if region = K.LPWAN_REGION_EU868 ∨ region = K.LPWAN_REGION_MEA868 then K.SIGFOX_RCZ1
    else if region = K.LPWAN_REGION_US915 ∨ region = K.LPWAN_REGION_SA915 then K.SIGFOX_RCZ2
    else if region = K.LPWAN_REGION_JP923 then K.SIGFOX_RCZ3C
    else if region = K.LPWAN_REGION_AU915 ∨ region = K.LPWAN_REGION_SA920
              ∨ region = K.LPWAN_REGION_AP920 then K.SIGFOX_RCZ4
    else if region = K.LPWAN_REGION_KR920 then K.SIGFOX_RCZ5
    else if region = K.LPWAN_REGION_IN865 then K.SIGFOX_UNSUPPORTED
    else K.SIGFOX_UNSUPPORTED
  (if rcz = K.SIGFOX_UNSUPPORTED then SIGFOX_INIT_FAILED else SIGFOX_INIT_SUCESS, rcz)

/-- The helper `_itsdk_sigfox_getRc()`. The result is `none` when `__api` or its
`getCurrentRegion` entry is `NULL` (the call through the pointer is then undefined). -/
def _itsdk_sigfox_getRc (K : Consts) (st : State) : Option Nat :=
  match st.__api with
  | none => none
  | some api =>
    match api.getCurrentRegion with
    | none => none
    | some region =>
      let r := itsdk_sigfox_getRczFromRegion K region
      if r.1 ≠ SIGFOX_INIT_SUCESS then some 0 else some r.2

/-- The helper `_itsdk_sigfox_getTxPower()`, returning `uint8_t`. `none` when a needed entry
of the capability table is `NULL`. -/
def _itsdk_sigfox_getTxPower (K : Consts) (st : State) : Option Nat :=
  match st.__api with
  | none => none
  | some api =>
    match api.getTxPower with
    | none => none
    | some power =>
      if power = K.SIGFOX_DEFAULT_POWER then
        match _itsdk_sigfox_getRc K st with
        | none => none
        | some rc =>
          if rc = K.SIGFOX_RCZ1 ∨ rc = K.SIGFOX_RCZ5 then some (toUint8 14)
          else if rc = K.SIGFOX_RCZ2 ∨ rc = K.SIGFOX_RCZ4 then some (toUint8 24)
          else if rc = K.SIGFOX_RCZ3C then some (toUint8 16)
          else some 0
      else some (toUint8 power)

/-- The helper `_itsdk_sigfox_getSpeed()`. The body stores the zone speed in
`itsdk_state.sigfox.current_speed` and ends without a `return`; the value the caller reads is
`E.indeterminate`. `ITSDK_ERROR_REPORT` is recorded as an event and returns. -/
def _itsdk_sigfox_getSpeed (K : Consts) (E : Env) (st : State) : Out Nat :=
  let rc := E.itsdk_sigfox_getRc
  if rc = K.SIGFOX_RCZ1 ∨ rc = K.SIGFOX_RCZ3C ∨ rc = K.SIGFOX_RCZ5 then
    ⟨E.indeterminate, { st with current_speed := K.SIGFOX_SPEED_100 }, []⟩
  else if rc = K.SIGFOX_RCZ2 ∨ rc = K.SIGFOX_RCZ4 then
    ⟨E.indeterminate, { st with current_speed := K.SIGFOX_SPEED_600 }, []⟩
  else
    ⟨E.indeterminate, st,
      [Event.ITSDK_ERROR_REPORT K.ITSDK_ERROR_SIGFOX_RCZ_NOTSUPPORTED (st.rcz % 65536)]⟩

/-! ## Power and speed setters -/

/-- The function `itsdk_sigfox_setTxPower_ext(power, force)`. -/
def itsdk_sigfox_setTxPower_ext (st : State) (power : Nat) (force : Bool) :
    Out itsdk_sigfox_init_t :=
  if !force && power == st.current_power then ⟨SIGFOX_INIT_NOCHANGE, st, []⟩
  else ⟨SIGFOX_INIT_SUCESS, { st with current_power := power },
        [Event.sx1276_sigfox_setPower power]⟩

/-- The function `itsdk_sigfox_setTxPower(power)`. -/
def itsdk_sigfox_setTxPower (st : State) (power : Nat) : Out itsdk_sigfox_init_t :=
  itsdk_sigfox_setTxPower_ext st power false

/-- The function `itsdk_sigfox_setTxSpeed(speed)`: not yet supported, changes nothing. -/
def itsdk_sigfox_setTxSpeed (st : State) (_speed : Nat) : Out itsdk_sigfox_init_t :=
  ⟨SIGFOX_INIT_NOCHANGE, st, []⟩

/-- The function `itsdk_sigfox_getTxSpeed(&speed)`: status and the value written to `*speed`. -/
def itsdk_sigfox_getTxSpeed (K : Consts) (E : Env) (st : State) :
    Out (itsdk_sigfox_init_t × Nat) :=
  let o := _itsdk_sigfox_getSpeed K E st
  ⟨(SIGFOX_INIT_SUCESS, o.ret), o.st, o.trace⟩

/-! ## Transmission controller -/

/-- The statement `if ( power == SIGFOX_POWER_DEFAULT ) power = itsdk_state.sigfox.current_power;`
that opens every transmit operation; `power` is an `int8_t`. -/
def resolvePower (K : Consts) (st : State) (power : Int) : Int :=
  if power = K.SIGFOX_POWER_DEFAULT then toInt8 st.current_power else power

/-- The statement `if ( speed == SIGFOX_SPEED_DEFAULT ) speed = _itsdk_sigfox_getSpeed();`
that follows it: the new value of `speed`, the globals and the calls made. -/
def resolveSpeed (K : Consts) (E : Env) (st : State) (speed : Nat) : Out Nat :=
  if speed = K.SIGFOX_SPEED_DEFAULT then _itsdk_sigfox_getSpeed K E st else ⟨speed, st, []⟩

/-- The function `itsdk_sigfox_sendFrame(buf, len, repeat, speed, power, encrypt, ack, dwn)`.
`buf` is the payload, `dwn` the downlink buffer (`none` is `NULL`). -/
def itsdk_sigfox_sendFrame (K : Consts) (E : Env) (st : State) (buf : List Nat) (len : Nat)
    (rep : Nat) (speed : Nat) (power : Int) (encrypt : Nat) (ack : Bool) (dwn : Option Nat) :
    Out itdsk_sigfox_txrx_t :=
  if len > 12 then ⟨SIGFOX_ERROR_PARAMS, st, []⟩
  else
    let rep := if rep > 2 then 2 else rep
    let power := resolvePower K st power
    let sp := resolveSpeed K E st speed
    if ack && dwn.isNone then ⟨SIGFOX_ERROR_PARAMS, sp.st, sp.trace⟩
    else if K.encryptionConfigured && (encrypt &&& K.PAYLOAD_ENCRYPT_SIGFOX == 0) then
      ⟨SIGFOX_TXRX_ERROR, sp.st, sp.trace ++ [Event.log_error_encryption_must_be_set]⟩
    else if !K.encryptionConfigured && (encrypt &&& K.PAYLOAD_ENCRYPT_SIGFOX != 0) then
      ⟨SIGFOX_TXRX_ERROR, sp.st, sp.trace ++ [Event.log_error_encryption_cant_be_set]⟩
    else
      let pw := itsdk_sigfox_setTxPower sp.st (toUint8 power)
      let ss := itsdk_sigfox_setTxSpeed pw.st sp.ret
      let ret := E.SIGFOX_API_send_frame buf len dwn rep ack % 65536
      let tr := sp.trace ++ pw.trace ++ ss.trace ++ [Event.SIGFOX_API_send_frame buf len dwn rep ack]
      let result :=
        if ret &&& 0xFF = K.SFX_ERR_INT_GET_RECEIVED_FRAMES_TIMEOUT then SIGFOX_TXRX_NO_DOWNLINK
        else if ret &&& 0xFF = K.SFX_ERR_NONE then
          if ack then SIGFOX_TXRX_DOWLINK_RECEIVED else SIGFOX_TRANSMIT_SUCESS
        else SIGFOX_TXRX_ERROR
      ⟨result, ss.st, tr⟩

/-- The function `itsdk_sigfox_sendBit(bitValue, repeat, speed, power, ack, dwn)`. -/
def itsdk_sigfox_sendBit (K : Consts) (E : Env) (st : State) (bitValue : Bool) (rep : Nat)
    (speed : Nat) (power : Int) (ack : Bool) (dwn : Option Nat) : Out itdsk_sigfox_txrx_t :=
  let rep := if rep > 2 then 2 else rep
  let power := resolvePower K st power
  let sp := resolveSpeed K E st speed
  if ack && dwn.isNone then ⟨SIGFOX_ERROR_PARAMS, sp.st, sp.trace⟩
  else
    let pw := itsdk_sigfox_setTxPower sp.st (toUint8 power)
    let ss := itsdk_sigfox_setTxSpeed pw.st sp.ret
    let ret := E.SIGFOX_API_send_bit bitValue dwn rep ack % 65536
    let tr := sp.trace ++ pw.trace ++ ss.trace ++ [Event.SIGFOX_API_send_bit bitValue dwn rep ack]
    let result :=
      if ret &&& 0xFF = K.SFX_ERR_INT_GET_RECEIVED_FRAMES_TIMEOUT then SIGFOX_TXRX_NO_DOWNLINK
      else if ret &&& 0xFF = K.SFX_ERR_NONE then
        if ack then SIGFOX_TXRX_DOWLINK_RECEIVED else SIGFOX_TRANSMIT_SUCESS
      else SIGFOX_TXRX_ERROR
    ⟨result, ss.st, tr⟩

/-- The function `itsdk_sigfox_sendOob(oobType, speed, power)`. -/
def itsdk_sigfox_sendOob (K : Consts) (E : Env) (st : State) (oobType : Nat) (speed : Nat)
    (power : Int) : Out itdsk_sigfox_txrx_t :=
  let power := resolvePower K st power
  let sp := resolveSpeed K E st speed
  let pw := itsdk_sigfox_setTxPower sp.st (toUint8 power)
  let ss := itsdk_sigfox_setTxSpeed pw.st sp.ret
  let tr := sp.trace ++ pw.trace ++ ss.trace
  let sent : Nat × List Event :=
    if oobType = K.SIGFOX_OOB_SERVICE then
      (E.SIGFOX_API_send_outofband K.SFX_OOB_SERVICE % 65536,
        [Event.SIGFOX_API_send_outofband K.SFX_OOB_SERVICE])
    else if oobType = K.SIGFOX_OOB_RC_SYNC then
      (E.SIGFOX_API_send_outofband K.SFX_OOB_RC_SYNC % 65536,
        [Event.SIGFOX_API_send_outofband K.SFX_OOB_RC_SYNC])
    else
      (0, [Event.ITSDK_ERROR_REPORT K.ITSDK_ERROR_SIGFOX_OOB_NOTSUPPORTED (oobType % 65536)])
  let result :=
    if sent.1 &&& 0xFF = K.SFX_ERR_NONE then SIGFOX_TRANSMIT_SUCESS else SIGFOX_TXRX_ERROR
  ⟨result, ss.st, tr ++ sent.2⟩

/-- The function `itsdk_sigfox_continuousModeStart(frequency, speed, power)`. -/
def itsdk_sigfox_continuousModeStart (K : Consts) (E : Env) (st : State) (frequency : Nat)
    (speed : Nat) (power : Int) : Out itsdk_sigfox_init_t :=
  let power := resolvePower K st power
  let sp := resolveSpeed K E st speed
  let pw := itsdk_sigfox_setTxPower sp.st (toUint8 power)
  let tr := sp.trace ++ pw.trace
  if sp.ret = K.SIGFOX_SPEED_100 then
    ⟨SIGFOX_INIT_SUCESS, pw.st,
      tr ++ [Event.SIGFOX_API_start_continuous_transmission frequency K.SFX_DBPSK_100BPS]⟩
  else if sp.ret = K.SIGFOX_SPEED_600 then
    ⟨SIGFOX_INIT_SUCESS, pw.st,
      tr ++ [Event.SIGFOX_API_start_continuous_transmission frequency K.SFX_DBPSK_600BPS]⟩
  else ⟨SIGFOX_INIT_PARAMSERR, pw.st, tr⟩

/-- The function `itsdk_sigfox_setRcSyncPeriod(numOfFrame)`. -/
def itsdk_sigfox_setRcSyncPeriod (st : State) (numOfFrame : Nat) : Out itsdk_sigfox_init_t :=
  if numOfFrame > 4096 then ⟨SIGFOX_INIT_PARAMSERR, st, []⟩
  else ⟨SIGFOX_INIT_SUCESS, st, [Event.SIGFOX_API_set_rc_sync_period numOfFrame]⟩

/-! ## Setup and teardown -/

/-- The guard of `sigfox_setup`: `api == NULL` or one of the seven function pointers it tests
is `NULL`. -/
def apiIncomplete : Option sigfox_api_t → Bool
  | none => true
  | some api =>
    api.getCurrentRegion.isNone || api.getDeviceId.isNone || api.getInitialPac.isNone
      || api.getDeviceKey.isNone || api.getCurrentSeqId.isNone || api.setCurrentSeqId.isNone
      || api.getTxPower.isNone

/-- The function `sigfox_setup(api)`. The result is `none` only if a helper would call through
a `NULL` pointer; `sigfox_setup_total` shows this never happens. -/
def sigfox_setup (K : Consts) (E : Env) (st : State) (api : Option sigfox_api_t) :
    Option (Out itsdk_sigfox_init_t) :=
  let st0 : State := { st with activeNetwork := K.ACTIV_NETWORK_SIGFOX }
  if st0.initialized then some ⟨SIGFOX_INIT_NOCHANGE, st0, []⟩
  else if apiIncomplete api then some ⟨SIGFOX_INIT_FAILED, st0, []⟩
  else
    let st1 : State := { st0 with __api := api }
    match _itsdk_sigfox_getRc K st1 with
    | none => none
    | some rcz =>
      if rcz = 0 then some ⟨SIGFOX_INIT_FAILED, st1, []⟩
      else
        let ret := E.sx1276_sigfox_init
        match _itsdk_sigfox_getTxPower K st1 with
        | none => none
        | some p =>
          let st2 : State := { st1 with current_power := p }
          let pw := itsdk_sigfox_setTxPower_ext st2 st2.current_power true
          let st3 : State :=
            if ret = SIGFOX_INIT_SUCESS then { pw.st with initialized := true } else pw.st
          some ⟨ret, st3, [Event.sx1276_sigfox_init] ++ pw.trace⟩

/-- The function `itsdk_sigfox_deinit()`. -/
def itsdk_sigfox_deinit (st : State) : Out itsdk_sigfox_init_t :=
  ⟨SIGFOX_INIT_SUCESS, { st with initialized := true }, [Event.sx1276_sigfox_deinit]⟩

/-! ## Sequence id -/

/-- The function `itsdk_sigfox_getNextSeqId(&seqId)`: status and the value left in `*seqId`.
`lastSeqId` is the value `sx1276_sigfox_getSeqId` stores in the `uint16_t`; `*seqId+1` is
computed in `int`, masked, and stored back as `uint16_t`. -/
def itsdk_sigfox_getNextSeqId (lastSeqId : Nat) : itsdk_sigfox_init_t × Nat :=
  let seqId := lastSeqId % 65536
  (SIGFOX_INIT_SUCESS, ((seqId + 1) &&& 0x0FFF) % 65536)

/-! ## Non-volatile memory layout -/

/-- The record `itsdk_sigfox_nvm_header_t`. -/
structure itsdk_sigfox_nvm_header_t where
  magic : Nat
  size : Nat
  reserved : Nat
  deriving DecidableEq, Repr

/-- Constants, configuration switches and external sizes used by the NVM functions; their
declarations are outside `src/`. `sizeof_header` is `sizeof(itsdk_sigfox_nvm_header_t)`;
`encodeHeader` / `decodeHeader` give the bytes of a header in memory and back (the casts
`(void *) &header`). `errorLogInEeprom` is the preprocessor test
`(ITSDK_WITH_ERROR_RPT == __ENABLE) && (ITSDK_ERROR_USE_EPROM == __ENABLE)`. -/
structure NvmConsts where
  ITSDK_SIGFOX_NVM_MAGIC : Nat
  SFX_NVMEM_BLOCK_SIZE : Nat
  SFX_SE_NVMEM_BLOCK_SIZE : Nat
  sizeof_header : Nat
  encodeHeader : itsdk_sigfox_nvm_header_t → List Nat
  decodeHeader : List Nat → itsdk_sigfox_nvm_header_t
  ITSDK_WITH_SECURESTORE : Bool
  itsdk_secstore_getStoreSize : Nat
  errorLogInEeprom : Bool
  itsdk_error_getSize : Nat

/-- Modelled from the spec: the macro `itdt_align_32b`, whose definition is not in `src/`,
is the "alignment to a fixed boundary (4 bytes)": the least multiple of 4 not below `n`. -/
def itdt_align_32b (n : Nat) : Nat := (n + 3) / 4 * 4

/-- The function `itsdk_sigfox_getNvmSize(&sz)`: status and `*sz` (`uint32_t`). -/
def itsdk_sigfox_getNvmSize (N : NvmConsts) : itsdk_sigfox_init_t × Nat :=
  (SIGFOX_INIT_SUCESS,
    (N.sizeof_header + itdt_align_32b N.SFX_NVMEM_BLOCK_SIZE
      + itdt_align_32b N.SFX_SE_NVMEM_BLOCK_SIZE) % 2 ^ 32)

/-- The function `itsdk_sigfox_getSigfoxNvmOffset(&offset)`: status and `*offset`. -/
def itsdk_sigfox_getSigfoxNvmOffset (N : NvmConsts) : itsdk_sigfox_init_t × Nat :=
  let sstore := if N.ITSDK_WITH_SECURESTORE then N.itsdk_secstore_getStoreSize % 2 ^ 32 else 0
  let ssError := if N.errorLogInEeprom then N.itsdk_error_getSize % 2 ^ 32 else 0
  (SIGFOX_INIT_SUCESS, (sstore + ssError) % 2 ^ 32)

/-- The function `itsdk_sigfox_getNvmOffset(&offset)`: status and `*offset`. -/
def itsdk_sigfox_getNvmOffset (N : NvmConsts) : itsdk_sigfox_init_t × Nat :=
  (SIGFOX_INIT_SUCESS, ((itsdk_sigfox_getSigfoxNvmOffset N).2 + N.sizeof_header) % 2 ^ 32)

/-- The function `itsdk_sigfox_getSeNvmOffset(&offset)`: status and `*offset`. -/
def itsdk_sigfox_getSeNvmOffset (N : NvmConsts) : itsdk_sigfox_init_t × Nat :=
  let size := itdt_align_32b N.SFX_NVMEM_BLOCK_SIZE
  (SIGFOX_INIT_SUCESS, ((itsdk_sigfox_getNvmOffset N).2 + size) % 2 ^ 32)

/-! ## Non-volatile memory content and factory reset -/

/-- Bank 0 of the EEPROM: the byte stored at each offset. -/
abbrev Storage := Nat → Nat

/-- Modelled from the spec: the storage primitive `read(bank, offset, length) -> bytes`
(`_eeprom_read`, not in `src/`) returns the `len` bytes stored from `offset` on. -/
def _eeprom_read (s : Storage) (offset len : Nat) : List Nat :=
  (List.range len).map (fun i => s (offset + i))

/-- Modelled from the spec: the storage primitive `write(bank, offset, bytes)`
(`_eeprom_write`, not in `src/`) stores the first `len` bytes of `data` from `offset` on and
leaves every other byte as it was. -/
def _eeprom_write (s : Storage) (offset : Nat) (data : List Nat) (len : Nat) : Storage :=
  fun a => if offset ≤ a ∧ a < offset + len then data.getD (a - offset) 0 else s a

/-- Modelled from the spec: `SE_NVM_set` (not in `src/`) writes the secure-element block,
`SFX_SE_NVMEM_BLOCK_SIZE` bytes, at the offset given by `itsdk_sigfox_getSeNvmOffset`. -/
def SE_NVM_set (N : NvmConsts) (s : Storage) (data : List Nat) : Storage :=
  _eeprom_write s (itsdk_sigfox_getSeNvmOffset N).2 data N.SFX_SE_NVMEM_BLOCK_SIZE

/-- Modelled from the spec: `MCU_API_set_nv_mem` (not in `src/`) writes the protocol-stack
block, `SFX_NVMEM_BLOCK_SIZE` bytes, at the offset given by `itsdk_sigfox_getNvmOffset`. -/
def MCU_API_set_nv_mem (N : NvmConsts) (s : Storage) (data : List Nat) : Storage :=
  _eeprom_write s (itsdk_sigfox_getNvmOffset N).2 data N.SFX_NVMEM_BLOCK_SIZE

/-- A call made by the factory reset, with its arguments. -/
inductive NvmEvent where
  | _eeprom_read (offset : Nat) (size : Nat)
  | _eeprom_write (offset : Nat) (header : itsdk_sigfox_nvm_header_t) (size : Nat)
  | SE_NVM_set (data : List Nat)
  | MCU_API_set_nv_mem (data : List Nat)
  deriving DecidableEq, Repr

/-- Calls that modify the storage. -/
def NvmEvent.isWrite : NvmEvent → Bool
  | ._eeprom_read _ _ => false
  | _ => true

/-- Result of the factory reset: status, storage afterwards, calls made (oldest first). -/
structure NvmOut where
  ret : itsdk_sigfox_init_t
  storage : Storage
  trace : List NvmEvent

/-- The array `uint8_t se_nvm_default[SFX_SE_NVMEM_BLOCK_SIZE] = { 0, 0, 0, 0x0F, 0xFF }`:
the five initialisers followed by zeros, `n` bytes in all. -/
def se_nvm_default (n : Nat) : List Nat :=
  ([0, 0, 0, 0x0F, 0xFF] ++ List.replicate (n - 5) 0).take n

/-- The header a reset writes: `magic`, the expected size, `reserved = 0`. -/
def freshHeader (N : NvmConsts) : itsdk_sigfox_nvm_header_t :=
  { magic := N.ITSDK_SIGFOX_NVM_MAGIC, size := (itsdk_sigfox_getNvmSize N).2, reserved := 0 }

/-- The function `__itsdk_sigfox_resetNvmToFactory(force)`. -/
def __itsdk_sigfox_resetNvmToFactory (N : NvmConsts) (s : Storage) (force : Bool) : NvmOut :=
  let offset := (itsdk_sigfox_getSigfoxNvmOffset N).2
  let header := N.decodeHeader (_eeprom_read s offset N.sizeof_header)
  let expecteSize := (itsdk_sigfox_getNvmSize N).2
  if force || header.magic != N.ITSDK_SIGFOX_NVM_MAGIC || header.size != expecteSize then
    let header : itsdk_sigfox_nvm_header_t :=
      { magic := N.ITSDK_SIGFOX_NVM_MAGIC, size := expecteSize, reserved := 0 }
    let s1 := _eeprom_write s offset (N.encodeHeader header) N.sizeof_header
    let s2 := SE_NVM_set N s1 (se_nvm_default N.SFX_SE_NVMEM_BLOCK_SIZE)
    let s3 := MCU_API_set_nv_mem N s2 (List.replicate N.SFX_NVMEM_BLOCK_SIZE 0)
    ⟨SIGFOX_INIT_SUCESS, s3,
      [NvmEvent._eeprom_read offset N.sizeof_header,
       NvmEvent._eeprom_write offset header N.sizeof_header,
       NvmEvent.SE_NVM_set (se_nvm_default N.SFX_SE_NVMEM_BLOCK_SIZE),
       NvmEvent.MCU_API_set_nv_mem (List.replicate N.SFX_NVMEM_BLOCK_SIZE 0)]⟩
  else
    ⟨SIGFOX_INIT_SUCESS, s, [NvmEvent._eeprom_read offset N.sizeof_header]⟩

/-! ## Predicates used to state the properties -/

/-- The request's `PAYLOAD_ENCRYPT_SIGFOX` flag, `(encrypt & PAYLOAD_ENCRYPT_SIGFOX) != 0`. -/
def encryptFlagSet (K : Consts) (encrypt : Nat) : Bool :=
  encrypt &&& K.PAYLOAD_ENCRYPT_SIGFOX != 0

/-- The four-way outcome mapping read on the byte `b`: `r` is `SIGFOX_TXRX_NO_DOWNLINK` for
the downlink-timeout code, `SIGFOX_TXRX_DOWLINK_RECEIVED` or `SIGFOX_TRANSMIT_SUCESS` for the
no-error code according to `ack`, `SIGFOX_TXRX_ERROR` for any other byte, and never a fifth
value. -/
def outcomeOfByte (K : Consts) (b : Nat) (ack : Bool) (r : itdsk_sigfox_txrx_t) : Prop :=
  (b = K.SFX_ERR_INT_GET_RECEIVED_FRAMES_TIMEOUT → r = SIGFOX_TXRX_NO_DOWNLINK) ∧
  (b = K.SFX_ERR_NONE → ack = true → r = SIGFOX_TXRX_DOWLINK_RECEIVED) ∧
  (b = K.SFX_ERR_NONE → ack = false → r = SIGFOX_TRANSMIT_SUCESS) ∧
  (b ≠ K.SFX_ERR_INT_GET_RECEIVED_FRAMES_TIMEOUT → b ≠ K.SFX_ERR_NONE →
    r = SIGFOX_TXRX_ERROR) ∧
  r ≠ SIGFOX_ERROR_PARAMS

/-- The resolved power of a transmit request, as a `uint8_t`: `current_power` when the
request carries the sentinel `SIGFOX_POWER_DEFAULT`, the request's own power converted to
`uint8_t` otherwise. -/
def resolvedPower (K : Consts) (st : State) (power : Int) : Nat :=
  if power = K.SIGFOX_POWER_DEFAULT then st.current_power else toUint8 power

/-- The globals with the `initialized` flag replaced by `b`. -/
def withInitialized (st : State) (b : Bool) : State := { st with initialized := b }

/-- Outcome `o₁`, obtained from globals whose flag was forced to `b`, agrees with outcome `o₂`
in the value returned and in the external calls made, and its globals are those of `o₂` with
the flag `b`. -/
def agreeUpToInitialized {α : Type} (o₁ o₂ : Out α) (b : Bool) : Prop :=
  o₁.ret = o₂.ret ∧ o₁.trace = o₂.trace ∧ o₁.st = withInitialized o₂.st b

/-! ## Concrete inputs used for evaluation -/

/-- The globals as the C runtime creates them: `itsdk_state = {0}`, `__api == NULL`. -/
def zeroState : State :=
  { activeNetwork := 0, initialized := false, rcz := 0, current_power := 0,
    current_speed := 0, __api := none }

/-- A complete capability table for region EU868 with the default power sentinel. -/
def sampleApi : sigfox_api_t :=
  { getCurrentRegion := some 0x0001, getDeviceId := some 0x00ABCDEF,
    getInitialPac := some [1, 2, 3, 4, 5, 6, 7, 8],
    getDeviceKey := some [0, 1, 2, 3, 4, 5, 6, 7, 8, 9, 10, 11, 12, 13, 14, 15],
    getCurrentSeqId := some 0, setCurrentSeqId := some (), getTxPower := some (-1) }

/-- An environment in zone RCZ1 in which every primitive of the stack answers `code`. -/
def sampleEnv (code : Nat) : Env :=
  { itsdk_sigfox_getRc := 1, indeterminate := 0,
    SIGFOX_API_send_frame := fun _ _ _ _ _ => code,
    SIGFOX_API_send_bit := fun _ _ _ _ => code,
    SIGFOX_API_send_outofband := fun _ => code,
    sx1276_sigfox_init := SIGFOX_INIT_SUCESS }

/-- Size of the secure store in front of the Sigfox area, 0 when the feature is disabled. -/
def secureStoreSize (N : NvmConsts) : Nat :=
  if N.ITSDK_WITH_SECURESTORE then N.itsdk_secstore_getStoreSize else 0

/-- Size of the error log in front of the Sigfox area, 0 when it is not kept in EEPROM. -/
def errorLogSize (N : NvmConsts) : Nat :=
  if N.errorLogInEeprom then N.itsdk_error_getSize else 0

/-- No sum of the layout computation overflows 32 bits. -/
def NvmConsts.fits32 (N : NvmConsts) : Prop :=
  secureStoreSize N + errorLogSize N + N.sizeof_header
    + itdt_align_32b N.SFX_NVMEM_BLOCK_SIZE + itdt_align_32b N.SFX_SE_NVMEM_BLOCK_SIZE < 2 ^ 32

instance (N : NvmConsts) : Decidable N.fits32 := by
  unfold NvmConsts.fits32; infer_instance

/-- The header found in storage at the base offset of the Sigfox area. -/
def storedHeader (N : NvmConsts) (s : Storage) : itsdk_sigfox_nvm_header_t :=
  N.decodeHeader (_eeprom_read s (itsdk_sigfox_getSigfoxNvmOffset N).2 N.sizeof_header)

/-- The reset condition of `__itsdk_sigfox_resetNvmToFactory`, on the stored header. -/
def resetNeeded (N : NvmConsts) (s : Storage) (force : Bool) : Prop :=
  force = true ∨ (storedHeader N s).magic ≠ N.ITSDK_SIGFOX_NVM_MAGIC ∨
    (storedHeader N s).size ≠ (itsdk_sigfox_getNvmSize N).2

/-- Four bytes of a 32-bit word, least significant first. -/
def le32 (x : Nat) : List Nat :=
  [x % 256, x / 256 % 256, x / 65536 % 256, x / 16777216 % 256]

/-- The 32-bit word whose least significant byte is at index `i` of `l`. -/
def ofLe32 (l : List Nat) (i : Nat) : Nat :=
  l.getD i 0 + 256 * l.getD (i + 1) 0 + 65536 * l.getD (i + 2) 0 + 16777216 * l.getD (i + 3) 0

/-- One concrete NVM configuration: a 12-byte header of three little-endian 32-bit words, a
7-byte protocol-stack block, a 5-byte secure-element block, a 152-byte secure store in front
and no error log in EEPROM. -/
def sampleNvm : NvmConsts :=
  { ITSDK_SIGFOX_NVM_MAGIC := 0x5AFEC0DE
    SFX_NVMEM_BLOCK_SIZE := 7
    SFX_SE_NVMEM_BLOCK_SIZE := 5
    sizeof_header := 12
    encodeHeader := fun h => le32 h.magic ++ le32 h.size ++ le32 h.reserved
    decodeHeader := fun l => { magic := ofLe32 l 0, size := ofLe32 l 4, reserved := ofLe32 l 8 }
    ITSDK_WITH_SECURESTORE := true
    itsdk_secstore_getStoreSize := 152
    errorLogInEeprom := false
    itsdk_error_getSize := 64 }

/-- A freshly zeroed storage area. -/
def zeroStorage : Storage := fun _ => 0

/-! ## Auxiliary facts -/

/-- Masking with `0xFF` keeps the low byte. -/
theorem land_0xFF (x : Nat) : x &&& 0xFF = x % 256 :=
  Nat.and_pow_two_sub_one_eq_mod x 8

/-- The clamp `if ( repeat > 2) repeat = 2;` is `min repeat 2`. -/
theorem clamp_repeat (rep : Nat) : (if rep > 2 then 2 else rep) = min rep 2 := by
  split <;> omega

/-- The speed lookup makes no call other than an error report. -/
theorem getSpeed_filter (K : Consts) (E : Env) (st : State) (p : Event → Bool)
    (hp : ∀ c v, p (Event.ITSDK_ERROR_REPORT c v) = false) :
    (_itsdk_sigfox_getSpeed K E st).trace.filter p = [] := by
  unfold _itsdk_sigfox_getSpeed
  dsimp only
  split_ifs <;> simp [hp]

/-- Resolving the speed makes no call other than an error report. -/
theorem resolveSpeed_filter (K : Consts) (E : Env) (st : State) (speed : Nat) (p : Event → Bool)
    (hp : ∀ c v, p (Event.ITSDK_ERROR_REPORT c v) = false) :
    (resolveSpeed K E st speed).trace.filter p = [] := by
  unfold resolveSpeed
  split_ifs
  · exact getSpeed_filter K E st p hp
  · rfl

/-- Resolving the speed changes no global other than `current_speed`. -/
theorem resolveSpeed_st (K : Consts) (E : Env) (st : State) (speed : Nat) :
    (resolveSpeed K E st speed).st
      = { st with current_speed := (resolveSpeed K E st speed).st.current_speed } := by
  unfold resolveSpeed _itsdk_sigfox_getSpeed
  dsimp only
  split_ifs <;> rfl

/-- Trace of `itsdk_sigfox_sendFrame` on the path that reaches the send primitive. -/
theorem sendFrame_dispatch_trace (K : Consts) (E : Env) (st : State) (buf : List Nat)
    (len rep : Nat) (speed : Nat) (power : Int) (encrypt : Nat) (ack : Bool) (dwn : Option Nat)
    (hlen : len ≤ 12) (hack : (ack && dwn.isNone) = false)
    (henc : encryptFlagSet K encrypt = K.encryptionConfigured) :
    (itsdk_sigfox_sendFrame K E st buf len rep speed power encrypt ack dwn).trace
      = (resolveSpeed K E st speed).trace
        ++ (itsdk_sigfox_setTxPower (resolveSpeed K E st speed).st
              (toUint8 (resolvePower K st power))).trace
        ++ [Event.SIGFOX_API_send_frame buf len dwn (min rep 2) ack] := by
  have h1 : ¬ 12 < len := by omega
  unfold encryptFlagSet at henc
  unfold itsdk_sigfox_sendFrame
  rw [clamp_repeat]
  cases hc : K.encryptionConfigured <;> rw [hc] at henc <;>
    simp only [gt_iff_lt, h1, hack, if_false, henc, Bool.not_true, Bool.not_false,
      Bool.and_false, Bool.false_and, Bool.true_and, Bool.and_true, Bool.false_eq_true] <;>
    simp_all [itsdk_sigfox_setTxSpeed]

/-- Result of `itsdk_sigfox_sendFrame` on the path that reaches the send primitive. -/
theorem sendFrame_dispatch_ret (K : Consts) (E : Env) (st : State) (buf : List Nat)
    (len rep : Nat) (speed : Nat) (power : Int) (encrypt : Nat) (ack : Bool) (dwn : Option Nat)
    (hlen : len ≤ 12) (hack : (ack && dwn.isNone) = false)
    (henc : encryptFlagSet K encrypt = K.encryptionConfigured) :
    (itsdk_sigfox_sendFrame K E st buf len rep speed power encrypt ack dwn).ret
      = if E.SIGFOX_API_send_frame buf len dwn (min rep 2) ack % 256
            = K.SFX_ERR_INT_GET_RECEIVED_FRAMES_TIMEOUT then SIGFOX_TXRX_NO_DOWNLINK
        else if E.SIGFOX_API_send_frame buf len dwn (min rep 2) ack % 256 = K.SFX_ERR_NONE then
          if ack then SIGFOX_TXRX_DOWLINK_RECEIVED else SIGFOX_TRANSMIT_SUCESS
        else SIGFOX_TXRX_ERROR := by
  have h1 : ¬ 12 < len := by omega
  have hm : ∀ x : Nat, x % 65536 % 256 = x % 256 := fun x => by omega
  unfold encryptFlagSet at henc
  unfold itsdk_sigfox_sendFrame
  rw [clamp_repeat]
  cases hc : K.encryptionConfigured <;> rw [hc] at henc <;>
    simp only [gt_iff_lt, h1, hack, if_false, henc, Bool.not_true, Bool.not_false,
      Bool.and_false, Bool.false_and, Bool.true_and, Bool.and_true, Bool.false_eq_true] <;>
    simp_all [land_0xFF]

/-- Globals after `itsdk_sigfox_sendFrame` on the path that reaches the send primitive. -/
theorem sendFrame_dispatch_st (K : Consts) (E : Env) (st : State) (buf : List Nat)
    (len rep : Nat) (speed : Nat) (power : Int) (encrypt : Nat) (ack : Bool) (dwn : Option Nat)
    (hlen : len ≤ 12) (hack : (ack && dwn.isNone) = false)
    (henc : encryptFlagSet K encrypt = K.encryptionConfigured) :
    (itsdk_sigfox_sendFrame K E st buf len rep speed power encrypt ack dwn).st
      = (itsdk_sigfox_setTxPower (resolveSpeed K E st speed).st
              (toUint8 (resolvePower K st power))).st := by
  have h1 : ¬ 12 < len := by omega
  unfold encryptFlagSet at henc
  unfold itsdk_sigfox_sendFrame
  cases hc : K.encryptionConfigured <;> rw [hc] at henc <;>
    simp only [gt_iff_lt, h1, hack, if_false, henc, Bool.not_true, Bool.not_false,
      Bool.and_false, Bool.false_and, Bool.true_and, Bool.and_true, Bool.false_eq_true] <;>
    simp_all [itsdk_sigfox_setTxSpeed]

/-- Outcome of `itsdk_sigfox_sendFrame` when the encryption flag contradicts the configuration. -/
theorem sendFrame_encrypt_mismatch (K : Consts) (E : Env) (st : State) (buf : List Nat)
    (len rep : Nat) (speed : Nat) (power : Int) (encrypt : Nat) (ack : Bool) (dwn : Option Nat)
    (hlen : len ≤ 12) (hack : (ack && dwn.isNone) = false)
    (henc : encryptFlagSet K encrypt ≠ K.encryptionConfigured) :
    (itsdk_sigfox_sendFrame K E st buf len rep speed power encrypt ack dwn).ret
        = SIGFOX_TXRX_ERROR ∧
    (itsdk_sigfox_sendFrame K E st buf len rep speed power encrypt ack dwn).st
        = (resolveSpeed K E st speed).st ∧
    ∃ e, e.isHardware = false ∧
      (itsdk_sigfox_sendFrame K E st buf len rep speed power encrypt ack dwn).trace
        = (resolveSpeed K E st speed).trace ++ [e] := by
  have h1 : ¬ 12 < len := by omega
  unfold encryptFlagSet at henc
  unfold itsdk_sigfox_sendFrame
  cases hc : K.encryptionConfigured <;> rw [hc] at henc <;>
    simp only [gt_iff_lt, h1, hack, if_false, Bool.not_true, Bool.not_false,
      Bool.and_false, Bool.false_and, Bool.true_and, Bool.and_true, Bool.false_eq_true] <;>
    simp_all [Event.isHardware, Event.isRadioDriver, Event.isProtocolStack]

/-- Outcome of `itsdk_sigfox_sendFrame` when `ack` is set and there is no downlink buffer. -/
theorem sendFrame_ack_reject (K : Consts) (E : Env) (st : State) (buf : List Nat)
    (len rep : Nat) (speed : Nat) (power : Int) (encrypt : Nat) (hlen : len ≤ 12) :
    (itsdk_sigfox_sendFrame K E st buf len rep speed power encrypt true none).ret
        = SIGFOX_ERROR_PARAMS ∧
    (itsdk_sigfox_sendFrame K E st buf len rep speed power encrypt true none).st
        = (resolveSpeed K E st speed).st ∧
    (itsdk_sigfox_sendFrame K E st buf len rep speed power encrypt true none).trace
        = (resolveSpeed K E st speed).trace := by
  have h1 : ¬ 12 < len := by omega
  simp [itsdk_sigfox_sendFrame, h1]

/-- Outcome of `itsdk_sigfox_sendFrame` when `len` exceeds 12. -/
theorem sendFrame_len_reject (K : Consts) (E : Env) (st : State) (buf : List Nat)
    (len rep : Nat) (speed : Nat) (power : Int) (encrypt : Nat) (ack : Bool) (dwn : Option Nat)
    (hlen : 12 < len) :
    (itsdk_sigfox_sendFrame K E st buf len rep speed power encrypt ack dwn).ret
        = SIGFOX_ERROR_PARAMS ∧
    (itsdk_sigfox_sendFrame K E st buf len rep speed power encrypt ack dwn).st = st ∧
    (itsdk_sigfox_sendFrame K E st buf len rep speed power encrypt ack dwn).trace = [] := by
  simp [itsdk_sigfox_sendFrame, hlen]

/-- Trace of `itsdk_sigfox_sendBit` on the path that reaches the send primitive. -/
theorem sendBit_dispatch_trace (K : Consts) (E : Env) (st : State) (bitValue : Bool)
    (rep : Nat) (speed : Nat) (power : Int) (ack : Bool) (dwn : Option Nat)
    (hack : (ack && dwn.isNone) = false) :
    (itsdk_sigfox_sendBit K E st bitValue rep speed power ack dwn).trace
      = (resolveSpeed K E st speed).trace
        ++ (itsdk_sigfox_setTxPower (resolveSpeed K E st speed).st
              (toUint8 (resolvePower K st power))).trace
        ++ [Event.SIGFOX_API_send_bit bitValue dwn (min rep 2) ack] := by
  unfold itsdk_sigfox_sendBit
  rw [clamp_repeat]
  simp [hack, itsdk_sigfox_setTxSpeed]

/-- Result of `itsdk_sigfox_sendBit` on the path that reaches the send primitive. -/
theorem sendBit_dispatch_ret (K : Consts) (E : Env) (st : State) (bitValue : Bool)
    (rep : Nat) (speed : Nat) (power : Int) (ack : Bool) (dwn : Option Nat)
    (hack : (ack && dwn.isNone) = false) :
    (itsdk_sigfox_sendBit K E st bitValue rep speed power ack dwn).ret
      = if E.SIGFOX_API_send_bit bitValue dwn (min rep 2) ack % 256
            = K.SFX_ERR_INT_GET_RECEIVED_FRAMES_TIMEOUT then SIGFOX_TXRX_NO_DOWNLINK
        else if E.SIGFOX_API_send_bit bitValue dwn (min rep 2) ack % 256 = K.SFX_ERR_NONE then
          if ack then SIGFOX_TXRX_DOWLINK_RECEIVED else SIGFOX_TRANSMIT_SUCESS
        else SIGFOX_TXRX_ERROR := by
  have hm : ∀ x : Nat, x % 65536 % 256 = x % 256 := fun x => by omega
  unfold itsdk_sigfox_sendBit
  rw [clamp_repeat]
  simp [hack, land_0xFF, hm]

/-- Globals after `itsdk_sigfox_sendBit` on the path that reaches the send primitive. -/
theorem sendBit_dispatch_st (K : Consts) (E : Env) (st : State) (bitValue : Bool)
    (rep : Nat) (speed : Nat) (power : Int) (ack : Bool) (dwn : Option Nat)
    (hack : (ack && dwn.isNone) = false) :
    (itsdk_sigfox_sendBit K E st bitValue rep speed power ack dwn).st
      = (itsdk_sigfox_setTxPower (resolveSpeed K E st speed).st
              (toUint8 (resolvePower K st power))).st := by
  unfold itsdk_sigfox_sendBit
  simp [hack, itsdk_sigfox_setTxSpeed]

/-- Outcome of `itsdk_sigfox_sendBit` when `ack` is set and there is no downlink buffer. -/
theorem sendBit_ack_reject (K : Consts) (E : Env) (st : State) (bitValue : Bool)
    (rep : Nat) (speed : Nat) (power : Int) :
    (itsdk_sigfox_sendBit K E st bitValue rep speed power true none).ret
        = SIGFOX_ERROR_PARAMS ∧
    (itsdk_sigfox_sendBit K E st bitValue rep speed power true none).st
        = (resolveSpeed K E st speed).st ∧
    (itsdk_sigfox_sendBit K E st bitValue rep speed power true none).trace
        = (resolveSpeed K E st speed).trace := by
  simp [itsdk_sigfox_sendBit]

/-- The power setter calls nothing but `sx1276_sigfox_setPower`. -/
theorem setTxPower_filter (st : State) (power : Nat) (p : Event → Bool)
    (hp : ∀ n, p (Event.sx1276_sigfox_setPower n) = false) :
    (itsdk_sigfox_setTxPower st power).trace.filter p = [] := by
  unfold itsdk_sigfox_setTxPower itsdk_sigfox_setTxPower_ext
  split_ifs <;> simp [hp]

/-! ## Request validation and dispatch -/

/-- C1: `itsdk_sigfox_sendFrame` with `len > 12` returns `SIGFOX_ERROR_PARAMS`, makes no external
call at all (so neither the send primitive nor the radio driver is invoked) and leaves the
globals untouched; with `len <= 12`, a downlink buffer whenever `ack` is set and the encryption
flag equal to the configuration, `SIGFOX_API_send_frame` is the only send-primitive call and it
is made exactly once, with the same payload and `len`. -/
theorem C1_sendFrame_length (K : Consts) (E : Env) (st : State) (buf : List Nat) (len rep : Nat)
    (speed : Nat) (power : Int) (encrypt : Nat) (ack : Bool) (dwn : Option Nat) :
    (12 < len →
      (itsdk_sigfox_sendFrame K E st buf len rep speed power encrypt ack dwn).ret
          = SIGFOX_ERROR_PARAMS ∧
      (itsdk_sigfox_sendFrame K E st buf len rep speed power encrypt ack dwn).trace = [] ∧
      (itsdk_sigfox_sendFrame K E st buf len rep speed power encrypt ack dwn).st = st) ∧
    (len ≤ 12 → (ack = true → dwn.isSome = true) →
      encryptFlagSet K encrypt = K.encryptionConfigured →
      (itsdk_sigfox_sendFrame K E st buf len rep speed power encrypt ack dwn).trace.filter
          Event.isSend = [Event.SIGFOX_API_send_frame buf len dwn (min rep 2) ack]) := by
  constructor
  · intro h
    obtain ⟨h1, h2, h3⟩ := sendFrame_len_reject K E st buf len rep speed power encrypt ack dwn h
    exact ⟨h1, h3, h2⟩
  · intro h hack henc
    have h2 : (ack && dwn.isNone) = false := by
      cases ack <;> cases dwn <;> simp_all
    rw [sendFrame_dispatch_trace K E st buf len rep speed power encrypt ack dwn h h2 henc]
    simp only [List.filter_append]
    rw [resolveSpeed_filter K E st speed Event.isSend (fun _ _ => rfl),
      setTxPower_filter _ _ Event.isSend (fun _ => rfl)]
    rfl

/-- Instance of C1 on concrete requests: 13 bytes are refused, 12 bytes are sent. -/
theorem C1_sendFrame_length_witness :
    ((itsdk_sigfox_sendFrame sampleConsts (sampleEnv 0) zeroState
        [1, 2, 3, 4, 5, 6, 7, 8, 9, 10, 11, 12, 13] 13 1 100 14 0 false none).ret
          = SIGFOX_ERROR_PARAMS ∧
      (itsdk_sigfox_sendFrame sampleConsts (sampleEnv 0) zeroState
        [1, 2, 3, 4, 5, 6, 7, 8, 9, 10, 11, 12, 13] 13 1 100 14 0 false none).trace = [] ∧
      (itsdk_sigfox_sendFrame sampleConsts (sampleEnv 0) zeroState
        [1, 2, 3, 4, 5, 6, 7, 8, 9, 10, 11, 12, 13] 13 1 100 14 0 false none).st = zeroState) ∧
    (itsdk_sigfox_sendFrame sampleConsts (sampleEnv 0) zeroState
        [1, 2, 3, 4, 5, 6, 7, 8, 9, 10, 11, 12] 12 1 100 14 0 false none).trace.filter
          Event.isSend
      = [Event.SIGFOX_API_send_frame [1, 2, 3, 4, 5, 6, 7, 8, 9, 10, 11, 12] 12 none
          (min 1 2) false] :=
  ⟨(C1_sendFrame_length sampleConsts (sampleEnv 0) zeroState
      [1, 2, 3, 4, 5, 6, 7, 8, 9, 10, 11, 12, 13] 13 1 100 14 0 false none).1 (by decide),
   (C1_sendFrame_length sampleConsts (sampleEnv 0) zeroState
      [1, 2, 3, 4, 5, 6, 7, 8, 9, 10, 11, 12] 12 1 100 14 0 false none).2
      (by decide) (by decide) (by decide)⟩

/-- C2: with `ack == true` and `dwn == NULL`, both `itsdk_sigfox_sendFrame` and
`itsdk_sigfox_sendBit` return `SIGFOX_ERROR_PARAMS`; neither makes a radio-driver or
protocol-stack call, and `current_power` keeps its value. -/
theorem C2_ack_without_downlink_buffer (K : Consts) (E : Env) (st : State) (buf : List Nat)
    (len rep : Nat) (speed : Nat) (power : Int) (encrypt : Nat) (bitValue : Bool) :
    ((itsdk_sigfox_sendFrame K E st buf len rep speed power encrypt true none).ret
        = SIGFOX_ERROR_PARAMS ∧
      (itsdk_sigfox_sendFrame K E st buf len rep speed power encrypt true none).trace.filter
        Event.isHardware = [] ∧
      (itsdk_sigfox_sendFrame K E st buf len rep speed power encrypt true none).st.current_power
        = st.current_power) ∧
    ((itsdk_sigfox_sendBit K E st bitValue rep speed power true none).ret
        = SIGFOX_ERROR_PARAMS ∧
      (itsdk_sigfox_sendBit K E st bitValue rep speed power true none).trace.filter
        Event.isHardware = [] ∧
      (itsdk_sigfox_sendBit K E st bitValue rep speed power true none).st.current_power
        = st.current_power) := by
  have hs : (resolveSpeed K E st speed).st.current_power = st.current_power := by
    rw [resolveSpeed_st]
  constructor
  · rcases Nat.lt_or_ge 12 len with h | h
    · obtain ⟨h1, h2, h3⟩ :=
        sendFrame_len_reject K E st buf len rep speed power encrypt true none h
      rw [h1, h2, h3]
      exact ⟨rfl, rfl, rfl⟩
    · obtain ⟨h1, h2, h3⟩ := sendFrame_ack_reject K E st buf len rep speed power encrypt h
      rw [h1, h2, h3]
      exact ⟨rfl, resolveSpeed_filter K E st speed Event.isHardware (fun _ _ => rfl), hs⟩
  · obtain ⟨h1, h2, h3⟩ := sendBit_ack_reject K E st bitValue rep speed power
    rw [h1, h2, h3]
    exact ⟨rfl, resolveSpeed_filter K E st speed Event.isHardware (fun _ _ => rfl), hs⟩

/-- C3: for a `itsdk_sigfox_sendFrame` request that passes the length and ack/buffer checks,
the frame is handed to `SIGFOX_API_send_frame` if and only if the request's
`PAYLOAD_ENCRYPT_SIGFOX` flag is set exactly when encryption is configured; on a mismatch (flag
absent under configured encryption, or flag set without it) the call returns the error result
`SIGFOX_TXRX_ERROR`, makes no radio-driver or protocol-stack call and keeps `current_power`. -/
theorem C3_encryption_policy (K : Consts) (E : Env) (st : State) (buf : List Nat)
    (len rep : Nat) (speed : Nat) (power : Int) (encrypt : Nat) (ack : Bool) (dwn : Option Nat)
    (hlen : len ≤ 12) (hack : ack = true → dwn.isSome = true) :
    (Event.SIGFOX_API_send_frame buf len dwn (min rep 2) ack
        ∈ (itsdk_sigfox_sendFrame K E st buf len rep speed power encrypt ack dwn).trace
      ↔ encryptFlagSet K encrypt = K.encryptionConfigured) ∧
    (encryptFlagSet K encrypt ≠ K.encryptionConfigured →
      (itsdk_sigfox_sendFrame K E st buf len rep speed power encrypt ack dwn).ret
          = SIGFOX_TXRX_ERROR ∧
      (itsdk_sigfox_sendFrame K E st buf len rep speed power encrypt ack dwn).trace.filter
          Event.isHardware = [] ∧
      (itsdk_sigfox_sendFrame K E st buf len rep speed power encrypt ack dwn).st.current_power
          = st.current_power) := by
  have h2 : (ack && dwn.isNone) = false := by
    cases ack <;> cases dwn <;> simp_all
  have hmis : encryptFlagSet K encrypt ≠ K.encryptionConfigured →
      (itsdk_sigfox_sendFrame K E st buf len rep speed power encrypt ack dwn).ret
          = SIGFOX_TXRX_ERROR ∧
      (itsdk_sigfox_sendFrame K E st buf len rep speed power encrypt ack dwn).trace.filter
          Event.isHardware = [] ∧
      (itsdk_sigfox_sendFrame K E st buf len rep speed power encrypt ack dwn).st.current_power
          = st.current_power := by
    intro hne
    obtain ⟨h1, hst, e, he, htr⟩ :=
      sendFrame_encrypt_mismatch K E st buf len rep speed power encrypt ack dwn hlen h2 hne
    refine ⟨h1, ?_, ?_⟩
    · rw [htr, List.filter_append,
        resolveSpeed_filter K E st speed Event.isHardware (fun _ _ => rfl)]
      simp [he]
    · rw [hst, resolveSpeed_st]
  refine ⟨⟨?_, ?_⟩, hmis⟩
  · intro hmem
    by_contra hne
    have hf := (hmis hne).2.1
    have : Event.SIGFOX_API_send_frame buf len dwn (min rep 2) ack
        ∈ (itsdk_sigfox_sendFrame K E st buf len rep speed power encrypt ack dwn).trace.filter
          Event.isHardware := List.mem_filter.mpr ⟨hmem, rfl⟩
    rw [hf] at this
    exact List.not_mem_nil _ this
  · intro henc
    rw [sendFrame_dispatch_trace K E st buf len rep speed power encrypt ack dwn hlen h2 henc]
    simp

/-- Instance of C3: with encryption not configured, a plain 3-byte frame is dispatched and the
same frame with the flag set is refused. -/
theorem C3_encryption_policy_witness :
    (Event.SIGFOX_API_send_frame [1, 2, 3] 3 none (min 0 2) false
        ∈ (itsdk_sigfox_sendFrame sampleConsts (sampleEnv 0) zeroState [1, 2, 3] 3 0 100 14 1
            false none).trace
      ↔ encryptFlagSet sampleConsts 1 = sampleConsts.encryptionConfigured) ∧
    (encryptFlagSet sampleConsts 1 ≠ sampleConsts.encryptionConfigured →
      (itsdk_sigfox_sendFrame sampleConsts (sampleEnv 0) zeroState [1, 2, 3] 3 0 100 14 1
          false none).ret = SIGFOX_TXRX_ERROR ∧
      (itsdk_sigfox_sendFrame sampleConsts (sampleEnv 0) zeroState [1, 2, 3] 3 0 100 14 1
          false none).trace.filter Event.isHardware = [] ∧
      (itsdk_sigfox_sendFrame sampleConsts (sampleEnv 0) zeroState [1, 2, 3] 3 0 100 14 1
          false none).st.current_power = zeroState.current_power) :=
  C3_encryption_policy sampleConsts (sampleEnv 0) zeroState [1, 2, 3] 3 0 100 14 1 false none
    (by decide) (by decide)

/-! ## Outcome mapping -/

/-- The if-chain of both send functions satisfies `outcomeOfByte` when the two case labels
differ. -/
theorem outcomeOfByte_chain (K : Consts) (b : Nat) (ack : Bool)
    (hne : K.SFX_ERR_INT_GET_RECEIVED_FRAMES_TIMEOUT ≠ K.SFX_ERR_NONE) :
    outcomeOfByte K b ack
      (if b = K.SFX_ERR_INT_GET_RECEIVED_FRAMES_TIMEOUT then SIGFOX_TXRX_NO_DOWNLINK
        else if b = K.SFX_ERR_NONE then
          if ack then SIGFOX_TXRX_DOWLINK_RECEIVED else SIGFOX_TRANSMIT_SUCESS
        else SIGFOX_TXRX_ERROR) := by
  unfold outcomeOfByte
  by_cases h1 : b = K.SFX_ERR_INT_GET_RECEIVED_FRAMES_TIMEOUT
  · have h2 : b ≠ K.SFX_ERR_NONE := fun h => hne (h1.symm.trans h)
    simp [h1, hne]
  · by_cases h2 : b = K.SFX_ERR_NONE
    · have h3 : ¬ K.SFX_ERR_NONE = K.SFX_ERR_INT_GET_RECEIVED_FRAMES_TIMEOUT := fun h => hne h.symm
      cases ack <;> simp [h2, h3]
    · simp [h1, h2]

/-- C4, as stated, fails: the status word `0x0100` is a 16-bit value that is neither the
no-error code nor the downlink-timeout code, yet `itsdk_sigfox_sendFrame` and
`itsdk_sigfox_sendBit` answer `SIGFOX_TRANSMIT_SUCESS` instead of `SIGFOX_TXRX_ERROR`, because
only `ret & 0xFF` is inspected. -/
theorem C4_high_byte_counterexample :
    (sampleEnv 0x0100).SIGFOX_API_send_frame [1, 2, 3] 3 none 0 false = 0x0100 ∧
    (sampleEnv 0x0100).SIGFOX_API_send_bit true none 0 false = 0x0100 ∧
    0x0100 < 65536 ∧
    0x0100 ≠ sampleConsts.SFX_ERR_NONE ∧
    0x0100 ≠ sampleConsts.SFX_ERR_INT_GET_RECEIVED_FRAMES_TIMEOUT ∧
    (itsdk_sigfox_sendFrame sampleConsts (sampleEnv 0x0100) zeroState [1, 2, 3] 3 0 100 14 0
        false none).ret = SIGFOX_TRANSMIT_SUCESS ∧
    (itsdk_sigfox_sendBit sampleConsts (sampleEnv 0x0100) zeroState true 0 100 14
        false none).ret = SIGFOX_TRANSMIT_SUCESS := by
  refine ⟨rfl, rfl, by decide, by decide, by decide, ?_, ?_⟩
  · rw [sendFrame_dispatch_ret _ _ _ _ _ _ _ _ _ _ _ (by decide) (by decide) (by decide)]
    decide
  · rw [sendBit_dispatch_ret _ _ _ _ _ _ _ _ _ (by decide)]
    decide

/-- C4 (amended): on every request that reaches the send primitive, the result of
`itsdk_sigfox_sendFrame` and of `itsdk_sigfox_sendBit` is determined by the low byte
`c & 0xFF` of the 16-bit status word `c` the primitive returns: `SIGFOX_TXRX_NO_DOWNLINK` when
that byte is the downlink-timeout code, `SIGFOX_TXRX_DOWLINK_RECEIVED` (ack requested) or
`SIGFOX_TRANSMIT_SUCESS` (no ack) when it is the no-error code, `SIGFOX_TXRX_ERROR` for every
other low byte; the mapping is total and yields only these four results. -/
theorem C4_outcome_mapping_low_byte (K : Consts) (E : Env) (st : State) (buf : List Nat)
    (len rep : Nat) (speed : Nat) (power : Int) (encrypt : Nat) (bitValue : Bool) (ack : Bool)
    (dwn : Option Nat) (hne : K.SFX_ERR_INT_GET_RECEIVED_FRAMES_TIMEOUT ≠ K.SFX_ERR_NONE)
    (hlen : len ≤ 12) (hack : ack = true → dwn.isSome = true)
    (henc : encryptFlagSet K encrypt = K.encryptionConfigured) :
    outcomeOfByte K (E.SIGFOX_API_send_frame buf len dwn (min rep 2) ack % 256) ack
      (itsdk_sigfox_sendFrame K E st buf len rep speed power encrypt ack dwn).ret ∧
    outcomeOfByte K (E.SIGFOX_API_send_bit bitValue dwn (min rep 2) ack % 256) ack
      (itsdk_sigfox_sendBit K E st bitValue rep speed power ack dwn).ret := by
  have h2 : (ack && dwn.isNone) = false := by
    cases ack <;> cases dwn <;> simp_all
  rw [sendFrame_dispatch_ret K E st buf len rep speed power encrypt ack dwn hlen h2 henc,
    sendBit_dispatch_ret K E st bitValue rep speed power ack dwn h2]
  exact ⟨outcomeOfByte_chain K _ ack hne, outcomeOfByte_chain K _ ack hne⟩

/-- Instance of the amended C4: status word `0x017E` (low byte `0x7E`, the downlink-timeout
code) on an acknowledged frame and bit. -/
theorem C4_outcome_mapping_low_byte_witness :
    outcomeOfByte sampleConsts
      ((sampleEnv 0x017E).SIGFOX_API_send_frame [1, 2, 3] 3 (some 0) (min 1 2) true % 256) true
      (itsdk_sigfox_sendFrame sampleConsts (sampleEnv 0x017E) zeroState [1, 2, 3] 3 1 100 14 0
        true (some 0)).ret ∧
    outcomeOfByte sampleConsts
      ((sampleEnv 0x017E).SIGFOX_API_send_bit true (some 0) (min 1 2) true % 256) true
      (itsdk_sigfox_sendBit sampleConsts (sampleEnv 0x017E) zeroState true 1 100 14
        true (some 0)).ret :=
  C4_outcome_mapping_low_byte sampleConsts (sampleEnv 0x017E) zeroState [1, 2, 3] 3 1 100 14 0
    true true (some 0) (by decide) (by decide) (by decide) (by decide)

/-- C5: on every request that passes validation, `itsdk_sigfox_sendFrame` and
`itsdk_sigfox_sendBit` make exactly one protocol-stack call, the send primitive, with
`min repeat 2` as repeat count and with payload (or bit value), length, downlink buffer and
ack flag as given; validation never looks at `repeat`, and the result is never
`SIGFOX_ERROR_PARAMS`. -/
theorem C5_repeat_clamped (K : Consts) (E : Env) (st : State) (buf : List Nat)
    (len rep : Nat) (speed : Nat) (power : Int) (encrypt : Nat) (bitValue : Bool) (ack : Bool)
    (dwn : Option Nat) (hlen : len ≤ 12) (hack : ack = true → dwn.isSome = true)
    (henc : encryptFlagSet K encrypt = K.encryptionConfigured) :
    ((itsdk_sigfox_sendFrame K E st buf len rep speed power encrypt ack dwn).trace.filter
        Event.isProtocolStack = [Event.SIGFOX_API_send_frame buf len dwn (min rep 2) ack] ∧
      (itsdk_sigfox_sendFrame K E st buf len rep speed power encrypt ack dwn).ret
        ≠ SIGFOX_ERROR_PARAMS) ∧
    ((itsdk_sigfox_sendBit K E st bitValue rep speed power ack dwn).trace.filter
        Event.isProtocolStack = [Event.SIGFOX_API_send_bit bitValue dwn (min rep 2) ack] ∧
      (itsdk_sigfox_sendBit K E st bitValue rep speed power ack dwn).ret
        ≠ SIGFOX_ERROR_PARAMS) := by
  have h2 : (ack && dwn.isNone) = false := by
    cases ack <;> cases dwn <;> simp_all
  refine ⟨⟨?_, ?_⟩, ?_, ?_⟩
  · rw [sendFrame_dispatch_trace K E st buf len rep speed power encrypt ack dwn hlen h2 henc]
    simp only [List.filter_append]
    rw [resolveSpeed_filter K E st speed Event.isProtocolStack (fun _ _ => rfl),
      setTxPower_filter _ _ Event.isProtocolStack (fun _ => rfl)]
    rfl
  · rw [sendFrame_dispatch_ret K E st buf len rep speed power encrypt ack dwn hlen h2 henc]
    split_ifs <;> decide
  · rw [sendBit_dispatch_trace K E st bitValue rep speed power ack dwn h2]
    simp only [List.filter_append]
    rw [resolveSpeed_filter K E st speed Event.isProtocolStack (fun _ _ => rfl),
      setTxPower_filter _ _ Event.isProtocolStack (fun _ => rfl)]
    rfl
  · rw [sendBit_dispatch_ret K E st bitValue rep speed power ack dwn h2]
    split_ifs <;> decide

/-- Instance of C5: `repeat == 5` is dispatched as 2, for a frame and for a bit. -/
theorem C5_repeat_clamped_witness :
    ((itsdk_sigfox_sendFrame sampleConsts (sampleEnv 0) zeroState [1, 2, 3] 3 5 100 14 0
        true (some 0)).trace.filter Event.isProtocolStack
        = [Event.SIGFOX_API_send_frame [1, 2, 3] 3 (some 0) (min 5 2) true] ∧
      (itsdk_sigfox_sendFrame sampleConsts (sampleEnv 0) zeroState [1, 2, 3] 3 5 100 14 0
        true (some 0)).ret ≠ SIGFOX_ERROR_PARAMS) ∧
    ((itsdk_sigfox_sendBit sampleConsts (sampleEnv 0) zeroState true 5 100 14
        true (some 0)).trace.filter Event.isProtocolStack
        = [Event.SIGFOX_API_send_bit true (some 0) (min 5 2) true] ∧
      (itsdk_sigfox_sendBit sampleConsts (sampleEnv 0) zeroState true 5 100 14
        true (some 0)).ret ≠ SIGFOX_ERROR_PARAMS) :=
  C5_repeat_clamped sampleConsts (sampleEnv 0) zeroState [1, 2, 3] 3 5 100 14 0 true true
    (some 0) (by decide) (by decide) (by decide)

/-! ## Region policy table -/

/-- C6: `itsdk_sigfox_getRczFromRegion` is a total function of the region; it writes RCZ1 for
EU868 and MEA868, RCZ2 for US915 and SA915, RCZ3C for JP923, RCZ4 for AU915, SA920 and AP920,
RCZ5 for KR920 and `SIGFOX_UNSUPPORTED` for IN865 and for every region outside the nine mapped
ones; it returns `SIGFOX_INIT_FAILED` exactly when the zone written is `SIGFOX_UNSUPPORTED` and
`SIGFOX_INIT_SUCESS` otherwise. -/
theorem C6_getRczFromRegion (K : Consts) (hK : K.regionsDistinct) :
    (itsdk_sigfox_getRczFromRegion K K.LPWAN_REGION_EU868).2 = K.SIGFOX_RCZ1 ∧
    (itsdk_sigfox_getRczFromRegion K K.LPWAN_REGION_MEA868).2 = K.SIGFOX_RCZ1 ∧
    (itsdk_sigfox_getRczFromRegion K K.LPWAN_REGION_US915).2 = K.SIGFOX_RCZ2 ∧
    (itsdk_sigfox_getRczFromRegion K K.LPWAN_REGION_SA915).2 = K.SIGFOX_RCZ2 ∧
    (itsdk_sigfox_getRczFromRegion K K.LPWAN_REGION_JP923).2 = K.SIGFOX_RCZ3C ∧
    (itsdk_sigfox_getRczFromRegion K K.LPWAN_REGION_AU915).2 = K.SIGFOX_RCZ4 ∧
    (itsdk_sigfox_getRczFromRegion K K.LPWAN_REGION_SA920).2 = K.SIGFOX_RCZ4 ∧
    (itsdk_sigfox_getRczFromRegion K K.LPWAN_REGION_AP920).2 = K.SIGFOX_RCZ4 ∧
    (itsdk_sigfox_getRczFromRegion K K.LPWAN_REGION_KR920).2 = K.SIGFOX_RCZ5 ∧
    (itsdk_sigfox_getRczFromRegion K K.LPWAN_REGION_IN865).2 = K.SIGFOX_UNSUPPORTED ∧
    (∀ region : Nat,
      region ∉ [K.LPWAN_REGION_EU868, K.LPWAN_REGION_MEA868, K.LPWAN_REGION_US915,
        K.LPWAN_REGION_SA915, K.LPWAN_REGION_JP923, K.LPWAN_REGION_AU915,
        K.LPWAN_REGION_SA920, K.LPWAN_REGION_AP920, K.LPWAN_REGION_KR920] →
      (itsdk_sigfox_getRczFromRegion K region).2 = K.SIGFOX_UNSUPPORTED) ∧
    (∀ region : Nat,
      ((itsdk_sigfox_getRczFromRegion K region).1 = SIGFOX_INIT_FAILED ↔
        (itsdk_sigfox_getRczFromRegion K region).2 = K.SIGFOX_UNSUPPORTED) ∧
      ((itsdk_sigfox_getRczFromRegion K region).2 ≠ K.SIGFOX_UNSUPPORTED →
        (itsdk_sigfox_getRczFromRegion K region).1 = SIGFOX_INIT_SUCESS)) := by
  simp only [Consts.regionsDistinct, List.nodup_cons, List.mem_cons, List.mem_singleton,
    not_or, List.not_mem_nil, not_false_eq_true, List.nodup_nil, and_true] at hK
  obtain ⟨⟨a1, a2, a3, a4, a5, a6, a7, a8, a9⟩, ⟨b2, b3, b4, b5, b6, b7, b8, b9⟩,
    ⟨c3, c4, c5, c6, c7, c8, c9⟩, ⟨d4, d5, d6, d7, d8, d9⟩, ⟨e5, e6, e7, e8, e9⟩,
    ⟨f6, f7, f8, f9⟩, ⟨g7, g8, g9⟩, ⟨h8, h9⟩, i9⟩ := hK
  have sel : ∀ region : Nat, (itsdk_sigfox_getRczFromRegion K region).2 =
      (if region = K.LPWAN_REGION_EU868 ∨ region = K.LPWAN_REGION_MEA868 then K.SIGFOX_RCZ1
      else if region = K.LPWAN_REGION_US915 ∨ region = K.LPWAN_REGION_SA915 then K.SIGFOX_RCZ2
      else if region = K.LPWAN_REGION_JP923 then K.SIGFOX_RCZ3C
      else if region = K.LPWAN_REGION_AU915 ∨ region = K.LPWAN_REGION_SA920
                ∨ region = K.LPWAN_REGION_AP920 then K.SIGFOX_RCZ4
      else if region = K.LPWAN_REGION_KR920 then K.SIGFOX_RCZ5
      else if region = K.LPWAN_REGION_IN865 then K.SIGFOX_UNSUPPORTED
      else K.SIGFOX_UNSUPPORTED) := by
    intro region
    rfl
  have ne' : ∀ {a b : Nat}, a ≠ b → b ≠ a := fun h => h.symm
  refine ⟨?_, ?_, ?_, ?_, ?_, ?_, ?_, ?_, ?_, ?_, ?_, ?_⟩
  · rw [sel]; simp
  · rw [sel]; simp
  · rw [sel]; simp [ne' a2, ne' b2]
  · rw [sel]; simp [ne' a3, ne' b3]
  · rw [sel]; simp [ne' a4, ne' b4, ne' c4, ne' d4]
  · rw [sel]; simp [ne' a5, ne' b5, ne' c5, ne' d5, ne' e5]
  · rw [sel]; simp [ne' a6, ne' b6, ne' c6, ne' d6, ne' e6]
  · rw [sel]; simp [ne' a7, ne' b7, ne' c7, ne' d7, ne' e7]
  · rw [sel]; simp [ne' a8, ne' b8, ne' c8, ne' d8, ne' e8, ne' f8, ne' g8, ne' h8]
  · rw [sel]; simp [ne' a9, ne' b9, ne' c9, ne' d9, ne' e9, ne' f9, ne' g9, ne' h9, ne' i9]
  · intro region hr
    simp only [List.mem_cons, List.mem_singleton, not_or, List.not_mem_nil,
      not_false_eq_true, and_true] at hr
    obtain ⟨r1, r2, r3, r4, r5, r6, r7, r8, r9⟩ := hr
    rw [sel]; simp [r1, r2, r3, r4, r5, r6, r7, r8, r9]
  · intro region
    have st1 : (itsdk_sigfox_getRczFromRegion K region).1 =
        if (itsdk_sigfox_getRczFromRegion K region).2 = K.SIGFOX_UNSUPPORTED
        then SIGFOX_INIT_FAILED else SIGFOX_INIT_SUCESS := rfl
    rw [st1]
    constructor
    · constructor
      · intro h
        by_contra hne
        rw [if_neg hne] at h
        exact absurd h (by decide)
      · intro h
        rw [if_pos h]
    · intro h
      rw [if_neg h]

/-- Instance of C6 on the sample constants. -/
theorem C6_getRczFromRegion_witness :
    (itsdk_sigfox_getRczFromRegion sampleConsts sampleConsts.LPWAN_REGION_EU868).2
      = sampleConsts.SIGFOX_RCZ1 ∧
    (itsdk_sigfox_getRczFromRegion sampleConsts sampleConsts.LPWAN_REGION_IN865).2
      = sampleConsts.SIGFOX_UNSUPPORTED ∧
    (itsdk_sigfox_getRczFromRegion sampleConsts sampleConsts.LPWAN_REGION_IN865).1
      = SIGFOX_INIT_FAILED :=
  have h := C6_getRczFromRegion sampleConsts (by decide)
  ⟨h.1, h.2.2.2.2.2.2.2.2.2.1,
    ((h.2.2.2.2.2.2.2.2.2.2.2 sampleConsts.LPWAN_REGION_IN865).1).2 h.2.2.2.2.2.2.2.2.2.1⟩

/-- The zone `_itsdk_sigfox_getRc` hands to its callers: the zone of the region, or `0` when
the region has no zone. -/
theorem getRc_eq (K : Consts) (st : State) (api : sigfox_api_t) (region : Nat)
    (hapi : st.__api = some api) (hreg : api.getCurrentRegion = some region) :
    _itsdk_sigfox_getRc K st
      = some (if (itsdk_sigfox_getRczFromRegion K region).2 = K.SIGFOX_UNSUPPORTED then 0
              else (itsdk_sigfox_getRczFromRegion K region).2) := by
  have st1 : (itsdk_sigfox_getRczFromRegion K region).1 =
      if (itsdk_sigfox_getRczFromRegion K region).2 = K.SIGFOX_UNSUPPORTED
      then SIGFOX_INIT_FAILED else SIGFOX_INIT_SUCESS := rfl
  unfold _itsdk_sigfox_getRc
  rw [hapi]
  dsimp only
  rw [hreg]
  dsimp only
  rw [st1]
  by_cases h : (itsdk_sigfox_getRczFromRegion K region).2 = K.SIGFOX_UNSUPPORTED
  · simp [h]
  · simp [h]

/-- C7, as stated, fails: the configured power `-2` is not the sentinel, yet
`_itsdk_sigfox_getTxPower`, whose return type is `uint8_t`, hands back 254 and not -2. -/
theorem C7_negative_power_counterexample :
    (-2 : Int) ≠ sampleConsts.SIGFOX_DEFAULT_POWER ∧
    _itsdk_sigfox_getTxPower sampleConsts
        { zeroState with __api := some { sampleApi with getTxPower := some (-2) } }
      = some 254 ∧
    ((254 : Nat) : Int) ≠ -2 := by
  refine ⟨by decide, by rfl, by decide⟩

/-- C7 (amended): with the capability table bound, when the configured power is the sentinel
`SIGFOX_DEFAULT_POWER` the derived power `_itsdk_sigfox_getTxPower` is 14 for a region of zone
RCZ1 or RCZ5, 24 for RCZ2 or RCZ4, 16 for RCZ3C, and the sentinel 0 for a region whose zone is
`SIGFOX_UNSUPPORTED`; a configured power other than the sentinel is returned converted to
`uint8_t`: the same number when it is not negative, the number plus 256 when it is negative. -/
theorem C7_default_power (K : Consts) (st : State) (api : sigfox_api_t) (region : Nat)
    (power : Int) (hz : K.zonesValid) (hapi : st.__api = some api)
    (hreg : api.getCurrentRegion = some region) (hpow : api.getTxPower = some power) :
    (power = K.SIGFOX_DEFAULT_POWER →
      ((itsdk_sigfox_getRczFromRegion K region).2 = K.SIGFOX_RCZ1 ∨
        (itsdk_sigfox_getRczFromRegion K region).2 = K.SIGFOX_RCZ5 →
          _itsdk_sigfox_getTxPower K st = some 14) ∧
      ((itsdk_sigfox_getRczFromRegion K region).2 = K.SIGFOX_RCZ2 ∨
        (itsdk_sigfox_getRczFromRegion K region).2 = K.SIGFOX_RCZ4 →
          _itsdk_sigfox_getTxPower K st = some 24) ∧
      ((itsdk_sigfox_getRczFromRegion K region).2 = K.SIGFOX_RCZ3C →
          _itsdk_sigfox_getTxPower K st = some 16) ∧
      ((itsdk_sigfox_getRczFromRegion K region).2 = K.SIGFOX_UNSUPPORTED →
          _itsdk_sigfox_getTxPower K st = some 0)) ∧
    (power ≠ K.SIGFOX_DEFAULT_POWER →
      _itsdk_sigfox_getTxPower K st = some (toUint8 power) ∧
      (0 ≤ power → power < 256 → ((toUint8 power : Nat) : Int) = power) ∧
      (-256 ≤ power → power < 0 → ((toUint8 power : Nat) : Int) = power + 256)) := by
  simp only [Consts.zonesValid, List.nodup_cons, List.mem_cons, List.mem_singleton,
    not_or, List.not_mem_nil, not_false_eq_true, List.nodup_nil, and_true] at hz
  obtain ⟨⟨⟨a2, a3, a4, a5, a6⟩, ⟨b3, b4, b5, b6⟩, ⟨c4, c5, c6⟩, ⟨d5, d6⟩, e6⟩,
    ⟨⟨_, _, _, _, z1⟩, ⟨_, _, _, z2⟩, ⟨_, _, z3⟩, ⟨_, z4⟩, z5⟩⟩ := hz
  have ne' : ∀ {a b : Nat}, a ≠ b → b ≠ a := fun h => h.symm
  have hrc := getRc_eq K st api region hapi hreg
  have e14 : toUint8 14 = 14 := by decide
  have e24 : toUint8 24 = 24 := by decide
  have e16 : toUint8 16 = 16 := by decide
  constructor
  · intro hd
    have hT : _itsdk_sigfox_getTxPower K st =
        (let rc := if (itsdk_sigfox_getRczFromRegion K region).2 = K.SIGFOX_UNSUPPORTED then 0
              else (itsdk_sigfox_getRczFromRegion K region).2
        if rc = K.SIGFOX_RCZ1 ∨ rc = K.SIGFOX_RCZ5 then some (toUint8 14)
        else if rc = K.SIGFOX_RCZ2 ∨ rc = K.SIGFOX_RCZ4 then some (toUint8 24)
        else if rc = K.SIGFOX_RCZ3C then some (toUint8 16)
        else some 0) := by
      unfold _itsdk_sigfox_getTxPower
      rw [hapi]
      dsimp only
      rw [hpow]
      dsimp only
      rw [if_pos hd, hrc]
    rw [hT, e14, e24, e16]
    dsimp only
    refine ⟨?_, ?_, ?_, ?_⟩
    · rintro (h | h)
      · rw [h, if_neg a6]; simp
      · rw [h, if_neg e6]; simp
    · rintro (h | h)
      · rw [h, if_neg b6]; simp [ne' a2, b5]
      · rw [h, if_neg d6]; simp [ne' a4, d5]
    · intro h
      rw [h, if_neg c6]; simp [ne' a3, c5, ne' b3, c4]
    · intro h
      rw [if_pos h]; simp [ne' z1, ne' z2, ne' z3, ne' z4, ne' z5]
  · intro hd
    constructor
    · unfold _itsdk_sigfox_getTxPower
      rw [hapi]
      dsimp only
      rw [hpow]
      dsimp only
      rw [if_neg hd]
    · constructor
      · intro h0 h1
        unfold toUint8
        rw [Int.emod_eq_of_lt h0 h1]
        exact Int.toNat_of_nonneg h0
      · intro h0 h1
        unfold toUint8
        have hm : power % 256 = power + 256 := by omega
        rw [hm]
        exact Int.toNat_of_nonneg (by omega)

/-- Instance of the amended C7: the sample table (region EU868, zone RCZ1, power sentinel)
yields 14, and the same table with the configured power `-2` yields `-2 + 256`. -/
theorem C7_default_power_witness :
    _itsdk_sigfox_getTxPower sampleConsts { zeroState with __api := some sampleApi } = some 14 ∧
    (_itsdk_sigfox_getTxPower sampleConsts
        { zeroState with __api := some { sampleApi with getTxPower := some (-2) } }
      = some (toUint8 (-2)) ∧
      ((toUint8 (-2) : Nat) : Int) = -2 + 256) :=
  ⟨((C7_default_power sampleConsts { zeroState with __api := some sampleApi } sampleApi 0x0001
      (-1) (by decide) rfl rfl rfl).1 (by decide)).1 (Or.inl (by decide)),
   ((C7_default_power sampleConsts
      { zeroState with __api := some { sampleApi with getTxPower := some (-2) } }
      { sampleApi with getTxPower := some (-2) } 0x0001 (-2) (by decide) rfl rfl rfl).2
      (by decide)).1,
   (((C7_default_power sampleConsts
      { zeroState with __api := some { sampleApi with getTxPower := some (-2) } }
      { sampleApi with getTxPower := some (-2) } 0x0001 (-2) (by decide) rfl rfl rfl).2
      (by decide)).2.2) (by decide) (by decide)⟩

/-- C8 (evaluation of the code): `_itsdk_sigfox_getSpeed` stores the zone speed in
`itsdk_state.sigfox.current_speed` and ends without a `return` statement, so the value read
by its callers (`itsdk_sigfox_getTxSpeed`, and every send with `speed == SIGFOX_SPEED_DEFAULT`)
is the indeterminate one whatever the zone; in zone RCZ1 the stored speed is
`SIGFOX_SPEED_100` while the value handed back is not. -/
theorem C8_getSpeed_returns_no_value :
    (∀ (K : Consts) (E : Env) (st : State),
      (_itsdk_sigfox_getSpeed K E st).ret = E.indeterminate ∧
      (itsdk_sigfox_getTxSpeed K E st).ret.2 = E.indeterminate ∧
      (resolveSpeed K E st K.SIGFOX_SPEED_DEFAULT).ret = E.indeterminate) ∧
    (sampleEnv 0).itsdk_sigfox_getRc = sampleConsts.SIGFOX_RCZ1 ∧
    (_itsdk_sigfox_getSpeed sampleConsts (sampleEnv 0) zeroState).st.current_speed
      = sampleConsts.SIGFOX_SPEED_100 ∧
    (_itsdk_sigfox_getSpeed sampleConsts (sampleEnv 0) zeroState).ret
      ≠ sampleConsts.SIGFOX_SPEED_100 ∧
    (itsdk_sigfox_getTxSpeed sampleConsts (sampleEnv 0) zeroState).ret
      = (SIGFOX_INIT_SUCESS, 0) := by
  have h : ∀ (K : Consts) (E : Env) (st : State),
      (_itsdk_sigfox_getSpeed K E st).ret = E.indeterminate := by
    intro K E st
    unfold _itsdk_sigfox_getSpeed
    dsimp only
    split_ifs <;> rfl
  refine ⟨fun K E st => ⟨h K E st, h K E st, ?_⟩, rfl, by decide, by decide, by decide⟩
  unfold resolveSpeed
  rw [if_pos rfl]
  exact h K E st

/-! ## Power setter -/

/-- C9: `itsdk_sigfox_setTxPower_ext(p, force)` with `force == false` and
`p == current_power` returns `SIGFOX_INIT_NOCHANGE`, makes no call and leaves the globals
unchanged; in every other case (`force == true`, or `p != current_power`) it calls
`sx1276_sigfox_setPower(p)` exactly once and nothing else, sets `current_power` to `p`,
changes no other global and returns `SIGFOX_INIT_SUCESS`. -/
theorem C9_setTxPower_ext (st : State) (p : Nat) (force : Bool) :
    (force = false → p = st.current_power →
      (itsdk_sigfox_setTxPower_ext st p force).ret = SIGFOX_INIT_NOCHANGE ∧
      (itsdk_sigfox_setTxPower_ext st p force).trace = [] ∧
      (itsdk_sigfox_setTxPower_ext st p force).st = st) ∧
    (force = true ∨ p ≠ st.current_power →
      (itsdk_sigfox_setTxPower_ext st p force).ret = SIGFOX_INIT_SUCESS ∧
      (itsdk_sigfox_setTxPower_ext st p force).trace = [Event.sx1276_sigfox_setPower p] ∧
      (itsdk_sigfox_setTxPower_ext st p force).st = { st with current_power := p }) := by
  constructor
  · intro hf hp
    simp [itsdk_sigfox_setTxPower_ext, hf, hp]
  · intro h
    have hc : (!force && p == st.current_power) = false := by
      rcases h with h | h
      · simp [h]
      · simp [h]
    simp [itsdk_sigfox_setTxPower_ext, hc]

/-- Instance of C9: power 20 requested while `current_power` is 20, without and with
`force`. -/
theorem C9_setTxPower_ext_witness :
    ((itsdk_sigfox_setTxPower_ext { zeroState with current_power := 20 } 20 false).ret
        = SIGFOX_INIT_NOCHANGE ∧
      (itsdk_sigfox_setTxPower_ext { zeroState with current_power := 20 } 20 false).trace = [] ∧
      (itsdk_sigfox_setTxPower_ext { zeroState with current_power := 20 } 20 false).st
        = { zeroState with current_power := 20 }) ∧
    ((itsdk_sigfox_setTxPower_ext { zeroState with current_power := 20 } 20 true).ret
        = SIGFOX_INIT_SUCESS ∧
      (itsdk_sigfox_setTxPower_ext { zeroState with current_power := 20 } 20 true).trace
        = [Event.sx1276_sigfox_setPower 20] ∧
      (itsdk_sigfox_setTxPower_ext { zeroState with current_power := 20 } 20 true).st
        = { { zeroState with current_power := 20 } with current_power := 20 }) :=
  ⟨(C9_setTxPower_ext { zeroState with current_power := 20 } 20 false).1 rfl rfl,
   (C9_setTxPower_ext { zeroState with current_power := 20 } 20 true).2 (Or.inl rfl)⟩

/-! ## The `initialized` flag and the transmit operations -/

/-- Resolving the speed does not read the flag. -/
theorem resolveSpeed_withInitialized (K : Consts) (E : Env) (st : State) (speed : Nat)
    (b : Bool) :
    agreeUpToInitialized (resolveSpeed K E (withInitialized st b) speed)
      (resolveSpeed K E st speed) b := by
  unfold agreeUpToInitialized resolveSpeed _itsdk_sigfox_getSpeed withInitialized
  dsimp only
  split_ifs <;> exact ⟨rfl, rfl, rfl⟩

/-- The power setter does not read the flag. -/
theorem setTxPower_ext_withInitialized (st : State) (power : Nat) (force b : Bool) :
    agreeUpToInitialized (itsdk_sigfox_setTxPower_ext (withInitialized st b) power force)
      (itsdk_sigfox_setTxPower_ext st power force) b := by
  unfold agreeUpToInitialized itsdk_sigfox_setTxPower_ext withInitialized
  dsimp only
  split_ifs <;> exact ⟨rfl, rfl, rfl⟩

/-- Sending a frame does not read the flag. -/
theorem sendFrame_withInitialized (K : Consts) (E : Env) (st : State) (buf : List Nat)
    (len rep : Nat) (speed : Nat) (power : Int) (encrypt : Nat) (ack : Bool) (dwn : Option Nat)
    (b : Bool) :
    agreeUpToInitialized
      (itsdk_sigfox_sendFrame K E (withInitialized st b) buf len rep speed power encrypt ack dwn)
      (itsdk_sigfox_sendFrame K E st buf len rep speed power encrypt ack dwn) b := by
  obtain ⟨r1, r2, r3⟩ := resolveSpeed_withInitialized K E st speed b
  have hp : resolvePower K (withInitialized st b) power = resolvePower K st power := rfl
  have hs := fun p => setTxPower_ext_withInitialized (resolveSpeed K E st speed).st p false b
  unfold agreeUpToInitialized itsdk_sigfox_sendFrame itsdk_sigfox_setTxPower
    itsdk_sigfox_setTxSpeed
  dsimp only
  simp only [r1, r2, r3, hp]
  split_ifs <;>
    first | exact ⟨rfl, rfl, rfl⟩ | exact ⟨rfl, by rw [(hs _).2.1], (hs _).2.2⟩

/-- Sending a bit does not read the flag. -/
theorem sendBit_withInitialized (K : Consts) (E : Env) (st : State) (bitValue : Bool)
    (rep : Nat) (speed : Nat) (power : Int) (ack : Bool) (dwn : Option Nat) (b : Bool) :
    agreeUpToInitialized
      (itsdk_sigfox_sendBit K E (withInitialized st b) bitValue rep speed power ack dwn)
      (itsdk_sigfox_sendBit K E st bitValue rep speed power ack dwn) b := by
  obtain ⟨r1, r2, r3⟩ := resolveSpeed_withInitialized K E st speed b
  have hp : resolvePower K (withInitialized st b) power = resolvePower K st power := rfl
  have hs := fun p => setTxPower_ext_withInitialized (resolveSpeed K E st speed).st p false b
  unfold agreeUpToInitialized itsdk_sigfox_sendBit itsdk_sigfox_setTxPower
    itsdk_sigfox_setTxSpeed
  dsimp only
  simp only [r1, r2, r3, hp]
  split_ifs <;>
    first | exact ⟨rfl, rfl, rfl⟩ | exact ⟨rfl, by rw [(hs _).2.1], (hs _).2.2⟩

/-- Sending an out-of-band message does not read the flag. -/
theorem sendOob_withInitialized (K : Consts) (E : Env) (st : State) (oobType : Nat)
    (speed : Nat) (power : Int) (b : Bool) :
    agreeUpToInitialized
      (itsdk_sigfox_sendOob K E (withInitialized st b) oobType speed power)
      (itsdk_sigfox_sendOob K E st oobType speed power) b := by
  obtain ⟨r1, r2, r3⟩ := resolveSpeed_withInitialized K E st speed b
  have hp : resolvePower K (withInitialized st b) power = resolvePower K st power := rfl
  have hs := fun p => setTxPower_ext_withInitialized (resolveSpeed K E st speed).st p false b
  unfold agreeUpToInitialized itsdk_sigfox_sendOob itsdk_sigfox_setTxPower
    itsdk_sigfox_setTxSpeed
  dsimp only
  simp only [r1, r2, r3, hp]
  exact ⟨trivial, by rw [(hs _).2.1], (hs _).2.2⟩

/-- Starting the continuous mode does not read the flag. -/
theorem continuousModeStart_withInitialized (K : Consts) (E : Env) (st : State)
    (frequency : Nat) (speed : Nat) (power : Int) (b : Bool) :
    agreeUpToInitialized
      (itsdk_sigfox_continuousModeStart K E (withInitialized st b) frequency speed power)
      (itsdk_sigfox_continuousModeStart K E st frequency speed power) b := by
  obtain ⟨r1, r2, r3⟩ := resolveSpeed_withInitialized K E st speed b
  have hp : resolvePower K (withInitialized st b) power = resolvePower K st power := rfl
  have hs := fun p => setTxPower_ext_withInitialized (resolveSpeed K E st speed).st p false b
  unfold agreeUpToInitialized itsdk_sigfox_continuousModeStart itsdk_sigfox_setTxPower
  dsimp only
  simp only [r1, r2, r3, hp]
  split_ifs <;> exact ⟨rfl, by rw [(hs _).2.1], (hs _).2.2⟩

/-- Setting the RC sync period does not read the flag. -/
theorem setRcSyncPeriod_withInitialized (st : State) (numOfFrame : Nat) (b : Bool) :
    agreeUpToInitialized (itsdk_sigfox_setRcSyncPeriod (withInitialized st b) numOfFrame)
      (itsdk_sigfox_setRcSyncPeriod st numOfFrame) b := by
  unfold agreeUpToInitialized itsdk_sigfox_setRcSyncPeriod
  split_ifs <;> exact ⟨rfl, rfl, rfl⟩

/-- C10, as stated, fails: on the zero-valued globals (`initialized == false`) the power
setter writes to the radio driver and returns `SIGFOX_INIT_SUCESS`, and a 3-byte frame is
handed to `SIGFOX_API_send_frame` and reported as `SIGFOX_TRANSMIT_SUCESS`. -/
theorem C10_uninitialized_counterexample :
    zeroState.initialized = false ∧
    (itsdk_sigfox_setTxPower_ext zeroState 20 true).ret = SIGFOX_INIT_SUCESS ∧
    (itsdk_sigfox_setTxPower_ext zeroState 20 true).trace = [Event.sx1276_sigfox_setPower 20] ∧
    (itsdk_sigfox_sendFrame sampleConsts (sampleEnv 0) zeroState [1, 2, 3] 3 0 100 14 0
        false none).ret = SIGFOX_TRANSMIT_SUCESS ∧
    (itsdk_sigfox_sendFrame sampleConsts (sampleEnv 0) zeroState [1, 2, 3] 3 0 100 14 0
        false none).trace
      = [Event.sx1276_sigfox_setPower 14, Event.SIGFOX_API_send_frame [1, 2, 3] 3 none 0 false]
    := by
  refine ⟨rfl, rfl, rfl, ?_, ?_⟩
  · rw [sendFrame_dispatch_ret _ _ _ _ _ _ _ _ _ _ _ (by decide) (by decide) (by decide)]
    decide
  · rw [sendFrame_dispatch_trace _ _ _ _ _ _ _ _ _ _ _ (by decide) (by decide) (by decide)]
    decide

/-- C10 (amended): none of the operations `itsdk_sigfox_sendFrame`, `itsdk_sigfox_sendBit`,
`itsdk_sigfox_sendOob`, `itsdk_sigfox_setTxPower_ext`, `itsdk_sigfox_continuousModeStart`,
`itsdk_sigfox_setRcSyncPeriod` consults `initialized`: run from globals whose flag is forced to
any value `b`, each returns the same result and makes the same radio-driver and protocol-stack
calls as from the original globals, updates the other globals in the same way, and leaves the
flag as it found it. -/
theorem C10_operations_ignore_initialized (K : Consts) (E : Env) (st : State) (b : Bool)
    (buf : List Nat) (len rep : Nat) (speed : Nat) (power : Int) (encrypt : Nat) (ack : Bool)
    (dwn : Option Nat) (bitValue : Bool) (oobType : Nat) (p : Nat) (force : Bool)
    (frequency : Nat) (numOfFrame : Nat) :
    (agreeUpToInitialized
        (itsdk_sigfox_sendFrame K E (withInitialized st b) buf len rep speed power encrypt ack
          dwn)
        (itsdk_sigfox_sendFrame K E st buf len rep speed power encrypt ack dwn) b ∧
      (itsdk_sigfox_sendFrame K E st buf len rep speed power encrypt ack dwn).st.initialized
        = st.initialized) ∧
    (agreeUpToInitialized
        (itsdk_sigfox_sendBit K E (withInitialized st b) bitValue rep speed power ack dwn)
        (itsdk_sigfox_sendBit K E st bitValue rep speed power ack dwn) b ∧
      (itsdk_sigfox_sendBit K E st bitValue rep speed power ack dwn).st.initialized
        = st.initialized) ∧
    (agreeUpToInitialized
        (itsdk_sigfox_sendOob K E (withInitialized st b) oobType speed power)
        (itsdk_sigfox_sendOob K E st oobType speed power) b ∧
      (itsdk_sigfox_sendOob K E st oobType speed power).st.initialized = st.initialized) ∧
    (agreeUpToInitialized
        (itsdk_sigfox_setTxPower_ext (withInitialized st b) p force)
        (itsdk_sigfox_setTxPower_ext st p force) b ∧
      (itsdk_sigfox_setTxPower_ext st p force).st.initialized = st.initialized) ∧
    (agreeUpToInitialized
        (itsdk_sigfox_continuousModeStart K E (withInitialized st b) frequency speed power)
        (itsdk_sigfox_continuousModeStart K E st frequency speed power) b ∧
      (itsdk_sigfox_continuousModeStart K E st frequency speed power).st.initialized
        = st.initialized) ∧
    (agreeUpToInitialized
        (itsdk_sigfox_setRcSyncPeriod (withInitialized st b) numOfFrame)
        (itsdk_sigfox_setRcSyncPeriod st numOfFrame) b ∧
      (itsdk_sigfox_setRcSyncPeriod st numOfFrame).st.initialized = st.initialized) := by
  have keep : ∀ {α : Type} (f : State → Out α),
      agreeUpToInitialized (f (withInitialized st st.initialized)) (f st) st.initialized →
      (f st).st.initialized = st.initialized := by
    intro α f h
    have e : withInitialized st st.initialized = st := rfl
    rw [e] at h
    have h3 := congrArg State.initialized h.2.2
    exact h3
  refine ⟨⟨sendFrame_withInitialized K E st buf len rep speed power encrypt ack dwn b, ?_⟩,
    ⟨sendBit_withInitialized K E st bitValue rep speed power ack dwn b, ?_⟩,
    ⟨sendOob_withInitialized K E st oobType speed power b, ?_⟩,
    ⟨setTxPower_ext_withInitialized st p force b, ?_⟩,
    ⟨continuousModeStart_withInitialized K E st frequency speed power b, ?_⟩,
    ⟨setRcSyncPeriod_withInitialized st numOfFrame b, ?_⟩⟩
  · exact keep (fun s => itsdk_sigfox_sendFrame K E s buf len rep speed power encrypt ack dwn)
      (sendFrame_withInitialized K E st buf len rep speed power encrypt ack dwn _)
  · exact keep (fun s => itsdk_sigfox_sendBit K E s bitValue rep speed power ack dwn)
      (sendBit_withInitialized K E st bitValue rep speed power ack dwn _)
  · exact keep (fun s => itsdk_sigfox_sendOob K E s oobType speed power)
      (sendOob_withInitialized K E st oobType speed power _)
  · exact keep (fun s => itsdk_sigfox_setTxPower_ext s p force)
      (setTxPower_ext_withInitialized st p force _)
  · exact keep (fun s => itsdk_sigfox_continuousModeStart K E s frequency speed power)
      (continuousModeStart_withInitialized K E st frequency speed power _)
  · exact keep (fun s => itsdk_sigfox_setRcSyncPeriod s numOfFrame)
      (setRcSyncPeriod_withInitialized st numOfFrame _)

/-! ## Setup and teardown -/

/-- A table that passes the guard of `sigfox_setup` has a region query and a power query. -/
theorem apiComplete_fields (a : sigfox_api_t) (hc : apiIncomplete (some a) = false) :
    (∃ region, a.getCurrentRegion = some region) ∧ (∃ power, a.getTxPower = some power) := by
  unfold apiIncomplete at hc
  simp only [Bool.or_eq_false_iff] at hc
  obtain ⟨⟨⟨⟨⟨⟨h1, _⟩, _⟩, _⟩, _⟩, _⟩, h7⟩ := hc
  constructor
  · cases h : a.getCurrentRegion with
    | none => rw [h] at h1; exact absurd h1 (by decide)
    | some r => exact ⟨r, rfl⟩
  · cases h : a.getTxPower with
    | none => rw [h] at h7; exact absurd h7 (by decide)
    | some r => exact ⟨r, rfl⟩

/-- With a bound table holding both queries, the power lookup yields a value. -/
theorem getTxPower_isSome (K : Consts) (st : State) (a : sigfox_api_t) (region : Nat)
    (power : Int) (hapi : st.__api = some a) (hreg : a.getCurrentRegion = some region)
    (hpow : a.getTxPower = some power) :
    ∃ p, _itsdk_sigfox_getTxPower K st = some p := by
  have hrc := getRc_eq K st a region hapi hreg
  unfold _itsdk_sigfox_getTxPower
  rw [hapi]
  dsimp only
  rw [hpow]
  dsimp only
  rw [hrc]
  dsimp only
  split_ifs <;> exact ⟨_, rfl⟩

/-- The setup routine on the path past its guards: uninitialised globals, complete table. -/
theorem sigfox_setup_complete (K : Consts) (E : Env) (st : State) (a : sigfox_api_t)
    (region : Nat) (p : Nat) (hinit : st.initialized = false)
    (hc : apiIncomplete (some a) = false) (hreg : a.getCurrentRegion = some region)
    (hp : _itsdk_sigfox_getTxPower K
      { st with activeNetwork := K.ACTIV_NETWORK_SIGFOX, __api := some a } = some p) :
    sigfox_setup K E st (some a) =
      if (if (itsdk_sigfox_getRczFromRegion K region).2 = K.SIGFOX_UNSUPPORTED then 0
          else (itsdk_sigfox_getRczFromRegion K region).2) = 0 then
        some ⟨SIGFOX_INIT_FAILED,
          { st with activeNetwork := K.ACTIV_NETWORK_SIGFOX, __api := some a }, []⟩
      else
        some ⟨E.sx1276_sigfox_init,
          { st with activeNetwork := K.ACTIV_NETWORK_SIGFOX, __api := some a,
                    current_power := p,
                    initialized := decide (E.sx1276_sigfox_init = SIGFOX_INIT_SUCESS) },
          [Event.sx1276_sigfox_init, Event.sx1276_sigfox_setPower p]⟩ := by
  have h1 : ¬ st.initialized = true := by rw [hinit]; decide
  have h2 : ¬ apiIncomplete (some a) = true := by rw [hc]; decide
  unfold sigfox_setup
  dsimp only
  rw [if_neg h1, if_neg h2, getRc_eq K _ a region rfl hreg]
  dsimp only
  by_cases h0 : (if (itsdk_sigfox_getRczFromRegion K region).2 = K.SIGFOX_UNSUPPORTED then 0
          else (itsdk_sigfox_getRczFromRegion K region).2) = 0
  · rw [if_pos h0, if_pos h0]
  · rw [if_neg h0, if_neg h0, hp]
    dsimp only
    by_cases hs : E.sx1276_sigfox_init = SIGFOX_INIT_SUCESS
    · simp [itsdk_sigfox_setTxPower_ext, hs]
    · simp [itsdk_sigfox_setTxPower_ext, hs, hinit]

/-- The setup routine always returns: no path calls through a `NULL` pointer. -/
theorem sigfox_setup_total (K : Consts) (E : Env) (st : State) (api : Option sigfox_api_t) :
    ∃ o, sigfox_setup K E st api = some o := by
  by_cases h1 : st.initialized = true
  · exact ⟨_, by unfold sigfox_setup; dsimp only; rw [if_pos h1]⟩
  · by_cases h2 : apiIncomplete api = true
    · exact ⟨_, by unfold sigfox_setup; dsimp only; rw [if_neg h1, if_pos h2]⟩
    · cases api with
      | none => exact absurd rfl h2
      | some a =>
        have hc : apiIncomplete (some a) = false := by simpa using h2
        have hinit : st.initialized = false := by simpa using h1
        obtain ⟨⟨region, hreg⟩, ⟨power, hpow⟩⟩ := apiComplete_fields a hc
        obtain ⟨p, hp⟩ := getTxPower_isSome K
          { st with activeNetwork := K.ACTIV_NETWORK_SIGFOX, __api := some a }
          a region power rfl hreg hpow
        rw [sigfox_setup_complete K E st a region p hinit hc hreg hp]
        split_ifs <;> exact ⟨_, rfl⟩

/-- The setup routine when the flag is already set: `SIGFOX_INIT_NOCHANGE`, no call, only
`activeNetwork` assigned. -/
theorem sigfox_setup_initialized (K : Consts) (E : Env) (st : State)
    (api : Option sigfox_api_t) (hinit : st.initialized = true) :
    sigfox_setup K E st api
      = some ⟨SIGFOX_INIT_NOCHANGE, { st with activeNetwork := K.ACTIV_NETWORK_SIGFOX }, []⟩ := by
  unfold sigfox_setup
  dsimp only
  rw [if_pos hinit]

/-- The setup routine on an incomplete table, flag not set: `SIGFOX_INIT_FAILED`, no call, only
`activeNetwork` assigned. -/
theorem sigfox_setup_incomplete (K : Consts) (E : Env) (st : State)
    (api : Option sigfox_api_t) (hinit : st.initialized = false)
    (hmiss : apiIncomplete api = true) :
    sigfox_setup K E st api
      = some ⟨SIGFOX_INIT_FAILED, { st with activeNetwork := K.ACTIV_NETWORK_SIGFOX }, []⟩ := by
  have h1 : ¬ st.initialized = true := by rw [hinit]; decide
  unfold sigfox_setup
  dsimp only
  rw [if_neg h1, if_pos hmiss]

/-- A setup that answers `SIGFOX_INIT_SUCESS` leaves the flag set and the network selected. -/
theorem sigfox_setup_success_state (K : Consts) (E : Env) (st : State)
    (api : Option sigfox_api_t) (o : Out itsdk_sigfox_init_t)
    (h : sigfox_setup K E st api = some o) (hs : o.ret = SIGFOX_INIT_SUCESS) :
    o.st.initialized = true ∧ o.st.activeNetwork = K.ACTIV_NETWORK_SIGFOX := by
  by_cases h1 : st.initialized = true
  · rw [sigfox_setup_initialized K E st api h1] at h
    have ho := Option.some.inj h
    subst ho
    exact absurd hs (by simp)
  · have hinit : st.initialized = false := by simpa using h1
    by_cases h2 : apiIncomplete api = true
    · rw [sigfox_setup_incomplete K E st api hinit h2] at h
      have ho := Option.some.inj h
      subst ho
      exact absurd hs (by simp)
    · cases api with
      | none => exact absurd rfl h2
      | some a =>
        have hc : apiIncomplete (some a) = false := by simpa using h2
        obtain ⟨⟨region, hreg⟩, ⟨power, hpow⟩⟩ := apiComplete_fields a hc
        obtain ⟨p, hp⟩ := getTxPower_isSome K
          { st with activeNetwork := K.ACTIV_NETWORK_SIGFOX, __api := some a }
          a region power rfl hreg hpow
        rw [sigfox_setup_complete K E st a region p hinit hc hreg hp] at h
        by_cases h0 : (if (itsdk_sigfox_getRczFromRegion K region).2 = K.SIGFOX_UNSUPPORTED
            then 0 else (itsdk_sigfox_getRczFromRegion K region).2) = 0
        · rw [if_pos h0] at h
          have ho := Option.some.inj h
          subst ho
          exact absurd hs (by simp)
        · rw [if_neg h0] at h
          have ho := Option.some.inj h
          subst ho
          dsimp only at hs ⊢
          exact ⟨by simp [hs], rfl⟩

/-- C12: with `initialized == true`, `sigfox_setup` returns `SIGFOX_INIT_NOCHANGE` for every
capability-table argument, `NULL` and incomplete ones included; it leaves `initialized`, the
zone, `current_power`, `current_speed` and the bound table `__api` as they were and makes no
external call. Hence a setup that follows a successful one without teardown changes nothing at
all. -/
theorem C12_setup_when_initialized (K : Consts) (E : Env) :
    (∀ (st : State) (api : Option sigfox_api_t), st.initialized = true →
      ∃ o, sigfox_setup K E st api = some o ∧ o.ret = SIGFOX_INIT_NOCHANGE ∧
        o.st.initialized = st.initialized ∧ o.st.rcz = st.rcz ∧
        o.st.current_power = st.current_power ∧ o.st.current_speed = st.current_speed ∧
        o.st.__api = st.__api ∧ o.trace = []) ∧
    (∀ (st : State) (api : Option sigfox_api_t) (o₁ : Out itsdk_sigfox_init_t),
      sigfox_setup K E st api = some o₁ → o₁.ret = SIGFOX_INIT_SUCESS →
      ∀ api₂ : Option sigfox_api_t,
        ∃ o₂, sigfox_setup K E o₁.st api₂ = some o₂ ∧ o₂.ret = SIGFOX_INIT_NOCHANGE ∧
          o₂.st = o₁.st ∧ o₂.trace = []) := by
  constructor
  · intro st api hinit
    exact ⟨_, sigfox_setup_initialized K E st api hinit, rfl, rfl, rfl, rfl, rfl, rfl, rfl⟩
  · intro st api o₁ h hs api₂
    obtain ⟨hi, hn⟩ := sigfox_setup_success_state K E st api o₁ h hs
    refine ⟨_, sigfox_setup_initialized K E o₁.st api₂ hi, rfl, ?_, rfl⟩
    show ({ o₁.st with activeNetwork := K.ACTIV_NETWORK_SIGFOX } : State) = o₁.st
    rw [← hn]

/-- Instance of C12: a setup with a `NULL` table on initialised globals, and a second setup
after the successful first one on the zero-valued globals. -/
theorem C12_setup_when_initialized_witness :
    (∃ o, sigfox_setup sampleConsts (sampleEnv 0) { zeroState with initialized := true } none
        = some o ∧ o.ret = SIGFOX_INIT_NOCHANGE ∧
        o.st.initialized = true ∧ o.st.rcz = 0 ∧ o.st.current_power = 0 ∧
        o.st.current_speed = 0 ∧ o.st.__api = none ∧ o.trace = []) ∧
    (∃ o₂, sigfox_setup sampleConsts (sampleEnv 0)
          { zeroState with activeNetwork := 1, initialized := true, current_power := 14,
                           __api := some sampleApi } none = some o₂ ∧
        o₂.ret = SIGFOX_INIT_NOCHANGE ∧
        o₂.st = { zeroState with activeNetwork := 1, initialized := true, current_power := 14,
                                 __api := some sampleApi } ∧
        o₂.trace = []) :=
  ⟨(C12_setup_when_initialized sampleConsts (sampleEnv 0)).1
      { zeroState with initialized := true } none rfl,
   (C12_setup_when_initialized sampleConsts (sampleEnv 0)).2 zeroState (some sampleApi)
      ⟨SIGFOX_INIT_SUCESS,
        { zeroState with activeNetwork := 1, initialized := true, current_power := 14,
                         __api := some sampleApi },
        [Event.sx1276_sigfox_init, Event.sx1276_sigfox_setPower 14]⟩ (by rfl) rfl none⟩

/-- C13, as stated, fails: on the zero-valued globals, a `NULL` table and a table without
`getDeviceKey` are both refused with `SIGFOX_INIT_FAILED`, which is not
`SIGFOX_INIT_PARAMSERR`. -/
theorem C13_missing_capability_counterexample :
    zeroState.initialized = false ∧
    (sigfox_setup sampleConsts (sampleEnv 0) zeroState none).map Out.ret
      = some SIGFOX_INIT_FAILED ∧
    (sigfox_setup sampleConsts (sampleEnv 0) zeroState
        (some { sampleApi with getDeviceKey := none })).map Out.ret
      = some SIGFOX_INIT_FAILED ∧
    SIGFOX_INIT_FAILED ≠ SIGFOX_INIT_PARAMSERR := by
  refine ⟨rfl, ?_, ?_, by decide⟩
  · rw [sigfox_setup_incomplete sampleConsts (sampleEnv 0) zeroState none rfl rfl]
    rfl
  · rw [sigfox_setup_incomplete sampleConsts (sampleEnv 0) zeroState
      (some { sampleApi with getDeviceKey := none }) rfl rfl]
    rfl

/-- C13 (amended): `sigfox_setup` called with `initialized == false` and a capability table
that is absent or lacks one of the seven required functions fails with `SIGFOX_INIT_FAILED`
(InitFailed); `initialized` stays false, no external call is made, and the previously bound
table, the zone, the power and the speed are untouched. -/
theorem C13_missing_capability (K : Consts) (E : Env) (st : State)
    (api : Option sigfox_api_t) (hinit : st.initialized = false)
    (hmiss : api = none ∨ ∃ a, api = some a ∧
      (a.getCurrentRegion = none ∨ a.getDeviceId = none ∨ a.getInitialPac = none ∨
        a.getDeviceKey = none ∨ a.getCurrentSeqId = none ∨ a.setCurrentSeqId = none ∨
        a.getTxPower = none)) :
    ∃ o, sigfox_setup K E st api = some o ∧ o.ret = SIGFOX_INIT_FAILED ∧
      o.st.initialized = false ∧ o.trace = [] ∧ o.st.__api = st.__api ∧ o.st.rcz = st.rcz ∧
      o.st.current_power = st.current_power ∧ o.st.current_speed = st.current_speed := by
  have hm : apiIncomplete api = true := by
    rcases hmiss with h | ⟨a, h, hf⟩
    · rw [h]; rfl
    · rw [h]
      unfold apiIncomplete
      rcases hf with h | h | h | h | h | h | h <;> simp [h]
  exact ⟨_, sigfox_setup_incomplete K E st api hinit hm, rfl, hinit, rfl, rfl, rfl, rfl, rfl⟩

/-- Instance of the amended C13: a table without `setCurrentSeqId`. -/
theorem C13_missing_capability_witness :
    ∃ o, sigfox_setup sampleConsts (sampleEnv 0) zeroState
          (some { sampleApi with setCurrentSeqId := none }) = some o ∧
      o.ret = SIGFOX_INIT_FAILED ∧ o.st.initialized = false ∧ o.trace = [] ∧
      o.st.__api = zeroState.__api ∧ o.st.rcz = zeroState.rcz ∧
      o.st.current_power = zeroState.current_power ∧
      o.st.current_speed = zeroState.current_speed :=
  C13_missing_capability sampleConsts (sampleEnv 0) zeroState
    (some { sampleApi with setCurrentSeqId := none }) rfl
    (Or.inr ⟨_, rfl, Or.inr (Or.inr (Or.inr (Or.inr (Or.inr (Or.inl rfl)))))⟩)

/-- C14 (evaluation of the code): `itsdk_sigfox_deinit` calls the driver's deinitialisation
and then stores `true`, not `false`, into `initialized`, from every state, the zero-valued one
included; a `sigfox_setup` that follows therefore answers `SIGFOX_INIT_NOCHANGE` without
initialising the radio driver. -/
theorem C14_deinit_leaves_initialized_set :
    (∀ st : State,
      (itsdk_sigfox_deinit st).st.initialized = true ∧
      (itsdk_sigfox_deinit st).trace = [Event.sx1276_sigfox_deinit] ∧
      ∀ (K : Consts) (E : Env) (api : Option sigfox_api_t),
        ∃ o, sigfox_setup K E (itsdk_sigfox_deinit st).st api = some o ∧
          o.ret = SIGFOX_INIT_NOCHANGE ∧ o.trace = []) ∧
    zeroState.initialized = false ∧
    (itsdk_sigfox_deinit zeroState).st.initialized = true ∧
    (sigfox_setup sampleConsts (sampleEnv 0) (itsdk_sigfox_deinit zeroState).st
        (some sampleApi)).map Out.ret = some SIGFOX_INIT_NOCHANGE := by
  refine ⟨fun st => ⟨rfl, rfl, fun K E api =>
      ⟨_, sigfox_setup_initialized K E _ api rfl, rfl, rfl⟩⟩, rfl, rfl, ?_⟩
  rw [sigfox_setup_initialized _ _ _ _ rfl]
  rfl

/-! ## Non-volatile memory -/

/-- The alignment macro yields the least multiple of 4 that is not below its argument. -/
theorem itdt_align_32b_spec (n : Nat) :
    4 ∣ itdt_align_32b n ∧ n ≤ itdt_align_32b n ∧ itdt_align_32b n < n + 4 ∧
    ∀ m, 4 ∣ m → n ≤ m → itdt_align_32b n ≤ m := by
  unfold itdt_align_32b
  refine ⟨Nat.dvd_mul_left 4 _, by omega, by omega, ?_⟩
  intro m hm hn
  obtain ⟨k, rfl⟩ := hm
  omega

/-- Reading back the range just written yields the bytes written. -/
theorem eeprom_read_write_same (s : Storage) (offset : Nat) (data : List Nat)
    (h : data.length = len) :
    _eeprom_read (_eeprom_write s offset data len) offset len = data := by
  unfold _eeprom_read _eeprom_write
  apply List.ext_getElem
  · simp [h]
  · intro i h1 h2
    have hi : i < len := by simpa using h1
    simp [hi, List.getElem?_eq_getElem h2]

/-- A write to a range that starts at or after the end of the range read does not change
what is read. -/
theorem eeprom_read_write_after (s : Storage) (offset len offset₂ len₂ : Nat)
    (data : List Nat) (h : offset + len ≤ offset₂) :
    _eeprom_read (_eeprom_write s offset₂ data len₂) offset len = _eeprom_read s offset len := by
  unfold _eeprom_read _eeprom_write
  apply List.map_congr_left
  intro i hi
  have hi' : i < len := List.mem_range.mp hi
  have : ¬ (offset₂ ≤ offset + i ∧ offset + i < offset₂ + len₂) := by omega
  simp [this]

/-- The four layout values when nothing overflows. -/
theorem nvm_layout_eqs (N : NvmConsts) (hfit : N.fits32) :
    (itsdk_sigfox_getSigfoxNvmOffset N).2 = secureStoreSize N + errorLogSize N ∧
    (itsdk_sigfox_getNvmSize N).2 = N.sizeof_header + itdt_align_32b N.SFX_NVMEM_BLOCK_SIZE
      + itdt_align_32b N.SFX_SE_NVMEM_BLOCK_SIZE ∧
    (itsdk_sigfox_getNvmOffset N).2 = secureStoreSize N + errorLogSize N + N.sizeof_header ∧
    (itsdk_sigfox_getSeNvmOffset N).2 = secureStoreSize N + errorLogSize N + N.sizeof_header
      + itdt_align_32b N.SFX_NVMEM_BLOCK_SIZE := by
  unfold NvmConsts.fits32 at hfit
  have hb : (itsdk_sigfox_getSigfoxNvmOffset N).2 = secureStoreSize N + errorLogSize N := by
    unfold itsdk_sigfox_getSigfoxNvmOffset secureStoreSize errorLogSize
    unfold secureStoreSize errorLogSize at hfit
    dsimp only
    cases h1 : N.ITSDK_WITH_SECURESTORE <;> cases h2 : N.errorLogInEeprom <;>
      simp only [h1, h2, if_true, if_false, Bool.false_eq_true] at hfit ⊢ <;> omega
  have hs : (itsdk_sigfox_getNvmSize N).2 = N.sizeof_header
      + itdt_align_32b N.SFX_NVMEM_BLOCK_SIZE + itdt_align_32b N.SFX_SE_NVMEM_BLOCK_SIZE := by
    unfold itsdk_sigfox_getNvmSize
    dsimp only
    omega
  have ho : (itsdk_sigfox_getNvmOffset N).2
      = secureStoreSize N + errorLogSize N + N.sizeof_header := by
    unfold itsdk_sigfox_getNvmOffset
    dsimp only
    rw [hb]
    omega
  refine ⟨hb, hs, ho, ?_⟩
  unfold itsdk_sigfox_getSeNvmOffset
  dsimp only
  rw [ho]
  omega

/-- C17: when no sum overflows 32 bits, the base offset is the secure-store size plus the
error-log size (each 0 when its feature is disabled); the required size is the header size plus
the two block sizes, each rounded up to the least multiple of 4 not below it; the
protocol-stack block starts at base + header size and the secure-element block where the
aligned protocol-stack block ends; the aligned secure-element block ends at base + required
size. Hence header, protocol-stack block and secure-element block lie in three consecutive,
pairwise disjoint ranges that exactly fill `[base, base + required size)`. -/
theorem C17_nvm_layout (N : NvmConsts) (hfit : N.fits32) :
    (∀ n, 4 ∣ itdt_align_32b n ∧ n ≤ itdt_align_32b n ∧
      ∀ m, 4 ∣ m → n ≤ m → itdt_align_32b n ≤ m) ∧
    (itsdk_sigfox_getSigfoxNvmOffset N).2 = secureStoreSize N + errorLogSize N ∧
    (itsdk_sigfox_getNvmSize N).2 = N.sizeof_header + itdt_align_32b N.SFX_NVMEM_BLOCK_SIZE
      + itdt_align_32b N.SFX_SE_NVMEM_BLOCK_SIZE ∧
    (itsdk_sigfox_getNvmOffset N).2 = (itsdk_sigfox_getSigfoxNvmOffset N).2 + N.sizeof_header ∧
    (itsdk_sigfox_getSeNvmOffset N).2
      = (itsdk_sigfox_getNvmOffset N).2 + itdt_align_32b N.SFX_NVMEM_BLOCK_SIZE ∧
    (itsdk_sigfox_getSeNvmOffset N).2 + itdt_align_32b N.SFX_SE_NVMEM_BLOCK_SIZE
      = (itsdk_sigfox_getSigfoxNvmOffset N).2 + (itsdk_sigfox_getNvmSize N).2 ∧
    (itsdk_sigfox_getNvmOffset N).2 + N.SFX_NVMEM_BLOCK_SIZE
      ≤ (itsdk_sigfox_getSeNvmOffset N).2 ∧
    (itsdk_sigfox_getSeNvmOffset N).2 + N.SFX_SE_NVMEM_BLOCK_SIZE
      ≤ (itsdk_sigfox_getSigfoxNvmOffset N).2 + (itsdk_sigfox_getNvmSize N).2 ∧
    (∀ a : Nat,
      ((itsdk_sigfox_getSigfoxNvmOffset N).2 ≤ a ∧
          a < (itsdk_sigfox_getSigfoxNvmOffset N).2 + (itsdk_sigfox_getNvmSize N).2) ↔
        (((itsdk_sigfox_getSigfoxNvmOffset N).2 ≤ a ∧
            a < (itsdk_sigfox_getSigfoxNvmOffset N).2 + N.sizeof_header) ∨
          ((itsdk_sigfox_getNvmOffset N).2 ≤ a ∧
            a < (itsdk_sigfox_getNvmOffset N).2 + itdt_align_32b N.SFX_NVMEM_BLOCK_SIZE) ∨
          ((itsdk_sigfox_getSeNvmOffset N).2 ≤ a ∧
            a < (itsdk_sigfox_getSeNvmOffset N).2
                  + itdt_align_32b N.SFX_SE_NVMEM_BLOCK_SIZE))) := by
  obtain ⟨hb, hs, ho, hse⟩ := nvm_layout_eqs N hfit
  have ha1 := (itdt_align_32b_spec N.SFX_NVMEM_BLOCK_SIZE).2.1
  have ha2 := (itdt_align_32b_spec N.SFX_SE_NVMEM_BLOCK_SIZE).2.1
  refine ⟨fun n => ⟨(itdt_align_32b_spec n).1, (itdt_align_32b_spec n).2.1,
    (itdt_align_32b_spec n).2.2.2⟩, hb, hs, ?_, ?_, ?_, ?_, ?_, ?_⟩
  · rw [ho, hb]
  · rw [hse, ho]
  · rw [hse, hb, hs]; omega
  · rw [hse, ho]; omega
  · rw [hse, hb, hs]; omega
  · intro a
    rw [hse, ho, hb, hs]
    omega

/-- Instance of C17 on the sample configuration: base 152, header 12, blocks of 7 and 5 bytes
in slots of 8, required size 28. -/
theorem C17_nvm_layout_witness :
    (itsdk_sigfox_getSigfoxNvmOffset sampleNvm).2 = 152 ∧
    (itsdk_sigfox_getNvmSize sampleNvm).2 = 28 ∧
    (itsdk_sigfox_getNvmOffset sampleNvm).2 = 164 ∧
    (itsdk_sigfox_getSeNvmOffset sampleNvm).2 = 172 ∧
    (itsdk_sigfox_getSeNvmOffset sampleNvm).2 + itdt_align_32b sampleNvm.SFX_SE_NVMEM_BLOCK_SIZE
      = (itsdk_sigfox_getSigfoxNvmOffset sampleNvm).2 + (itsdk_sigfox_getNvmSize sampleNvm).2 :=
  have h := C17_nvm_layout sampleNvm (by decide)
  ⟨by decide, by decide, by decide, by decide, h.2.2.2.2.2.1⟩

/-- The `if` of the factory reset tests exactly `resetNeeded`. -/
theorem reset_guard_iff (N : NvmConsts) (s : Storage) (force : Bool) :
    (force || (storedHeader N s).magic != N.ITSDK_SIGFOX_NVM_MAGIC
      || (storedHeader N s).size != (itsdk_sigfox_getNvmSize N).2) = true
    ↔ resetNeeded N s force := by
  unfold resetNeeded
  simp [or_assoc]

/-- The factory reset on the path that resets. -/
theorem reset_taken (N : NvmConsts) (s : Storage) (force : Bool)
    (h : resetNeeded N s force) :
    __itsdk_sigfox_resetNvmToFactory N s force =
      ⟨SIGFOX_INIT_SUCESS,
        MCU_API_set_nv_mem N
          (SE_NVM_set N
            (_eeprom_write s (itsdk_sigfox_getSigfoxNvmOffset N).2
              (N.encodeHeader (freshHeader N)) N.sizeof_header)
            (se_nvm_default N.SFX_SE_NVMEM_BLOCK_SIZE))
          (List.replicate N.SFX_NVMEM_BLOCK_SIZE 0),
        [NvmEvent._eeprom_read (itsdk_sigfox_getSigfoxNvmOffset N).2 N.sizeof_header,
         NvmEvent._eeprom_write (itsdk_sigfox_getSigfoxNvmOffset N).2 (freshHeader N)
           N.sizeof_header,
         NvmEvent.SE_NVM_set (se_nvm_default N.SFX_SE_NVMEM_BLOCK_SIZE),
         NvmEvent.MCU_API_set_nv_mem (List.replicate N.SFX_NVMEM_BLOCK_SIZE 0)]⟩ := by
  have hg := (reset_guard_iff N s force).mpr h
  unfold storedHeader at hg
  unfold __itsdk_sigfox_resetNvmToFactory
  dsimp only
  rw [if_pos hg]
  rfl

/-- The factory reset on the path that skips. -/
theorem reset_skipped (N : NvmConsts) (s : Storage) (force : Bool)
    (h : ¬ resetNeeded N s force) :
    __itsdk_sigfox_resetNvmToFactory N s force =
      ⟨SIGFOX_INIT_SUCESS, s,
        [NvmEvent._eeprom_read (itsdk_sigfox_getSigfoxNvmOffset N).2 N.sizeof_header]⟩ := by
  have hg : ¬ (force || (storedHeader N s).magic != N.ITSDK_SIGFOX_NVM_MAGIC
      || (storedHeader N s).size != (itsdk_sigfox_getNvmSize N).2) = true :=
    fun hg => h ((reset_guard_iff N s force).mp hg)
  unfold storedHeader at hg
  unfold __itsdk_sigfox_resetNvmToFactory
  dsimp only
  rw [if_neg hg]

/-- A write to a range that ends at or before the start of the range read does not change
what is read. -/
theorem eeprom_read_write_before (s : Storage) (offset len offset₂ len₂ : Nat)
    (data : List Nat) (h : offset₂ + len₂ ≤ offset) :
    _eeprom_read (_eeprom_write s offset₂ data len₂) offset len = _eeprom_read s offset len := by
  unfold _eeprom_read _eeprom_write
  apply List.map_congr_left
  intro i _
  have : ¬ (offset₂ ≤ offset + i ∧ offset + i < offset₂ + len₂) := by omega
  simp [this]

/-- A write changes no byte outside its range. -/
theorem eeprom_write_outside (s : Storage) (offset len : Nat) (data : List Nat) (a : Nat)
    (h : ¬ (offset ≤ a ∧ a < offset + len)) :
    _eeprom_write s offset data len a = s a := by
  unfold _eeprom_write
  rw [if_neg h]

/-- The factory pattern of the secure element has exactly the size of its block. -/
theorem se_nvm_default_length (n : Nat) : (se_nvm_default n).length = n := by
  unfold se_nvm_default
  simp
  omega

/-- Content of the storage a factory reset leaves behind: written by the three writes in
program order; outside the three written ranges every byte is as before; and, when the layout
does not overflow and the encoded header has the size of the record, the header bytes, the
factory pattern and the zeroed protocol-stack block can be read back at their offsets. -/
theorem reset_taken_storage (N : NvmConsts) (s : Storage) (force : Bool)
    (h : resetNeeded N s force) :
    (__itsdk_sigfox_resetNvmToFactory N s force).storage
      = MCU_API_set_nv_mem N
          (SE_NVM_set N
            (_eeprom_write s (itsdk_sigfox_getSigfoxNvmOffset N).2
              (N.encodeHeader (freshHeader N)) N.sizeof_header)
            (se_nvm_default N.SFX_SE_NVMEM_BLOCK_SIZE))
          (List.replicate N.SFX_NVMEM_BLOCK_SIZE 0) ∧
    (∀ a : Nat,
      ¬ ((itsdk_sigfox_getSigfoxNvmOffset N).2 ≤ a ∧
          a < (itsdk_sigfox_getSigfoxNvmOffset N).2 + N.sizeof_header) →
      ¬ ((itsdk_sigfox_getSeNvmOffset N).2 ≤ a ∧
          a < (itsdk_sigfox_getSeNvmOffset N).2 + N.SFX_SE_NVMEM_BLOCK_SIZE) →
      ¬ ((itsdk_sigfox_getNvmOffset N).2 ≤ a ∧
          a < (itsdk_sigfox_getNvmOffset N).2 + N.SFX_NVMEM_BLOCK_SIZE) →
      (__itsdk_sigfox_resetNvmToFactory N s force).storage a = s a) ∧
    (N.fits32 → (N.encodeHeader (freshHeader N)).length = N.sizeof_header →
      _eeprom_read (__itsdk_sigfox_resetNvmToFactory N s force).storage
          (itsdk_sigfox_getSigfoxNvmOffset N).2 N.sizeof_header
        = N.encodeHeader (freshHeader N) ∧
      _eeprom_read (__itsdk_sigfox_resetNvmToFactory N s force).storage
          (itsdk_sigfox_getSeNvmOffset N).2 N.SFX_SE_NVMEM_BLOCK_SIZE
        = se_nvm_default N.SFX_SE_NVMEM_BLOCK_SIZE ∧
      _eeprom_read (__itsdk_sigfox_resetNvmToFactory N s force).storage
          (itsdk_sigfox_getNvmOffset N).2 N.SFX_NVMEM_BLOCK_SIZE
        = List.replicate N.SFX_NVMEM_BLOCK_SIZE 0) := by
  rw [reset_taken N s force h]
  dsimp only
  refine ⟨rfl, ?_, ?_⟩
  · intro a h1 h2 h3
    unfold MCU_API_set_nv_mem SE_NVM_set
    rw [eeprom_write_outside _ _ _ _ a h3, eeprom_write_outside _ _ _ _ a h2,
      eeprom_write_outside _ _ _ _ a h1]
  · intro hfit hlen
    obtain ⟨hb, _, ho, hse⟩ := nvm_layout_eqs N hfit
    have ha := (itdt_align_32b_spec N.SFX_NVMEM_BLOCK_SIZE).2.1
    refine ⟨?_, ?_, ?_⟩
    · unfold MCU_API_set_nv_mem SE_NVM_set
      rw [eeprom_read_write_after _ _ _ _ _ _ (by rw [ho, hb]),
        eeprom_read_write_after _ _ _ _ _ _ (by rw [hse, hb]; omega),
        eeprom_read_write_same _ _ _ hlen]
    · unfold MCU_API_set_nv_mem
      rw [eeprom_read_write_before _ _ _ _ _ _ (by rw [hse, ho]; omega)]
      unfold SE_NVM_set
      rw [eeprom_read_write_same _ _ _ (se_nvm_default_length _)]
    · unfold MCU_API_set_nv_mem
      rw [eeprom_read_write_same _ _ _ (List.length_replicate _ _)]

/-- C15: `__itsdk_sigfox_resetNvmToFactory` resets if and only if `force` is true, or the
stored header's magic differs from `ITSDK_SIGFOX_NVM_MAGIC`, or the stored header's size differs
from the size `itsdk_sigfox_getNvmSize` computes now. When it resets, it writes the header
{magic, required size, reserved = 0} at the base offset, then sets the secure-element block to
{0, 0, 0, 0x0F, 0xFF, 0, ...} and the protocol-stack block to all zero, in this order: the
storage afterwards is the result of these three writes, no byte outside the three written
ranges has changed, and (when the layout does not overflow 32 bits and the encoded header has
the size of the record) the header bytes, the factory pattern and the zeroed block are read
back at the base offset, the secure-element offset and the protocol-stack offset. When it
does not reset, it makes no write and the storage is unchanged. It returns
`SIGFOX_INIT_SUCESS` in both cases. -/
theorem C15_reset_condition (N : NvmConsts) (s : Storage) (force : Bool) :
    ((__itsdk_sigfox_resetNvmToFactory N s force).trace.filter NvmEvent.isWrite ≠ []
      ↔ (force = true ∨ (storedHeader N s).magic ≠ N.ITSDK_SIGFOX_NVM_MAGIC ∨
          (storedHeader N s).size ≠ (itsdk_sigfox_getNvmSize N).2)) ∧
    ((force = true ∨ (storedHeader N s).magic ≠ N.ITSDK_SIGFOX_NVM_MAGIC ∨
          (storedHeader N s).size ≠ (itsdk_sigfox_getNvmSize N).2) →
      (__itsdk_sigfox_resetNvmToFactory N s force).trace =
        [NvmEvent._eeprom_read (itsdk_sigfox_getSigfoxNvmOffset N).2 N.sizeof_header,
         NvmEvent._eeprom_write (itsdk_sigfox_getSigfoxNvmOffset N).2
           { magic := N.ITSDK_SIGFOX_NVM_MAGIC, size := (itsdk_sigfox_getNvmSize N).2,
             reserved := 0 } N.sizeof_header,
         NvmEvent.SE_NVM_set (se_nvm_default N.SFX_SE_NVMEM_BLOCK_SIZE),
         NvmEvent.MCU_API_set_nv_mem (List.replicate N.SFX_NVMEM_BLOCK_SIZE 0)] ∧
      (__itsdk_sigfox_resetNvmToFactory N s force).storage
        = MCU_API_set_nv_mem N
            (SE_NVM_set N
              (_eeprom_write s (itsdk_sigfox_getSigfoxNvmOffset N).2
                (N.encodeHeader { magic := N.ITSDK_SIGFOX_NVM_MAGIC,
                                  size := (itsdk_sigfox_getNvmSize N).2, reserved := 0 })
                N.sizeof_header)
              (se_nvm_default N.SFX_SE_NVMEM_BLOCK_SIZE))
            (List.replicate N.SFX_NVMEM_BLOCK_SIZE 0) ∧
      (∀ a : Nat,
        ¬ ((itsdk_sigfox_getSigfoxNvmOffset N).2 ≤ a ∧
            a < (itsdk_sigfox_getSigfoxNvmOffset N).2 + N.sizeof_header) →
        ¬ ((itsdk_sigfox_getSeNvmOffset N).2 ≤ a ∧
            a < (itsdk_sigfox_getSeNvmOffset N).2 + N.SFX_SE_NVMEM_BLOCK_SIZE) →
        ¬ ((itsdk_sigfox_getNvmOffset N).2 ≤ a ∧
            a < (itsdk_sigfox_getNvmOffset N).2 + N.SFX_NVMEM_BLOCK_SIZE) →
        (__itsdk_sigfox_resetNvmToFactory N s force).storage a = s a) ∧
      (N.fits32 →
        (N.encodeHeader { magic := N.ITSDK_SIGFOX_NVM_MAGIC,
                          size := (itsdk_sigfox_getNvmSize N).2, reserved := 0 }).length
          = N.sizeof_header →
        _eeprom_read (__itsdk_sigfox_resetNvmToFactory N s force).storage
            (itsdk_sigfox_getSigfoxNvmOffset N).2 N.sizeof_header
          = N.encodeHeader { magic := N.ITSDK_SIGFOX_NVM_MAGIC,
                             size := (itsdk_sigfox_getNvmSize N).2, reserved := 0 } ∧
        _eeprom_read (__itsdk_sigfox_resetNvmToFactory N s force).storage
            (itsdk_sigfox_getSeNvmOffset N).2 N.SFX_SE_NVMEM_BLOCK_SIZE
          = se_nvm_default N.SFX_SE_NVMEM_BLOCK_SIZE ∧
        _eeprom_read (__itsdk_sigfox_resetNvmToFactory N s force).storage
            (itsdk_sigfox_getNvmOffset N).2 N.SFX_NVMEM_BLOCK_SIZE
          = List.replicate N.SFX_NVMEM_BLOCK_SIZE 0)) ∧
    (¬ (force = true ∨ (storedHeader N s).magic ≠ N.ITSDK_SIGFOX_NVM_MAGIC ∨
          (storedHeader N s).size ≠ (itsdk_sigfox_getNvmSize N).2) →
      (__itsdk_sigfox_resetNvmToFactory N s force).trace =
        [NvmEvent._eeprom_read (itsdk_sigfox_getSigfoxNvmOffset N).2 N.sizeof_header] ∧
      (__itsdk_sigfox_resetNvmToFactory N s force).storage = s) ∧
    (5 ≤ N.SFX_SE_NVMEM_BLOCK_SIZE →
      se_nvm_default N.SFX_SE_NVMEM_BLOCK_SIZE
        = [0, 0, 0, 0x0F, 0xFF] ++ List.replicate (N.SFX_SE_NVMEM_BLOCK_SIZE - 5) 0) ∧
    (__itsdk_sigfox_resetNvmToFactory N s force).ret = SIGFOX_INIT_SUCESS := by
  have hyes : resetNeeded N s force →
      (__itsdk_sigfox_resetNvmToFactory N s force).trace =
        [NvmEvent._eeprom_read (itsdk_sigfox_getSigfoxNvmOffset N).2 N.sizeof_header,
         NvmEvent._eeprom_write (itsdk_sigfox_getSigfoxNvmOffset N).2
           { magic := N.ITSDK_SIGFOX_NVM_MAGIC, size := (itsdk_sigfox_getNvmSize N).2,
             reserved := 0 } N.sizeof_header,
         NvmEvent.SE_NVM_set (se_nvm_default N.SFX_SE_NVMEM_BLOCK_SIZE),
         NvmEvent.MCU_API_set_nv_mem (List.replicate N.SFX_NVMEM_BLOCK_SIZE 0)] := by
    intro h
    rw [reset_taken N s force h]
    rfl
  have hno : ¬ resetNeeded N s force →
      (__itsdk_sigfox_resetNvmToFactory N s force).trace =
        [NvmEvent._eeprom_read (itsdk_sigfox_getSigfoxNvmOffset N).2 N.sizeof_header] ∧
      (__itsdk_sigfox_resetNvmToFactory N s force).storage = s := by
    intro h
    rw [reset_skipped N s force h]
    exact ⟨rfl, rfl⟩
  refine ⟨⟨?_, ?_⟩, ?_, hno, ?_, ?_⟩
  · intro hw
    by_contra hn
    rw [(hno hn).1] at hw
    exact hw rfl
  · intro h
    rw [hyes h]
    simp [NvmEvent.isWrite]
  · intro h
    obtain ⟨s1, s2, s3⟩ := reset_taken_storage N s force h
    exact ⟨hyes h, s1, s2, s3⟩
  · intro h5
    unfold se_nvm_default
    apply List.take_of_length_le
    simp
    omega
  · by_cases h : resetNeeded N s force
    · rw [reset_taken N s force h]
    · rw [reset_skipped N s force h]

/-- Instance of C15 on the sample configuration: a zeroed area is reset although `force` is
false; the calls carry the header, the 5-byte factory pattern and 7 zero bytes, and these are
what the storage holds afterwards at offsets 152, 172 and 164. -/
theorem C15_reset_condition_witness :
    (__itsdk_sigfox_resetNvmToFactory sampleNvm zeroStorage false).trace =
      [NvmEvent._eeprom_read 152 12,
       NvmEvent._eeprom_write 152 { magic := 0x5AFEC0DE, size := 28, reserved := 0 } 12,
       NvmEvent.SE_NVM_set [0, 0, 0, 0x0F, 0xFF],
       NvmEvent.MCU_API_set_nv_mem [0, 0, 0, 0, 0, 0, 0]] ∧
    _eeprom_read (__itsdk_sigfox_resetNvmToFactory sampleNvm zeroStorage false).storage 152 12
      = [0xDE, 0xC0, 0xFE, 0x5A, 28, 0, 0, 0, 0, 0, 0, 0] ∧
    _eeprom_read (__itsdk_sigfox_resetNvmToFactory sampleNvm zeroStorage false).storage 172 5
      = [0, 0, 0, 0x0F, 0xFF] ∧
    _eeprom_read (__itsdk_sigfox_resetNvmToFactory sampleNvm zeroStorage false).storage 164 7
      = [0, 0, 0, 0, 0, 0, 0] :=
  have h := (C15_reset_condition sampleNvm zeroStorage false).2.1
    (Or.inr (Or.inl (by decide)))
  ⟨h.1, (h.2.2.2 (by decide) (by decide)).1, (h.2.2.2 (by decide) (by decide)).2.1,
    (h.2.2.2 (by decide) (by decide)).2.2⟩

/-- After a factory reset, whether it reset or skipped, the stored header is the fresh one
as far as magic and size go. -/
theorem storedHeader_after_reset (N : NvmConsts) (s : Storage) (force : Bool)
    (hfit : N.fits32)
    (hlen : (N.encodeHeader (freshHeader N)).length = N.sizeof_header)
    (hrt : N.decodeHeader (N.encodeHeader (freshHeader N)) = freshHeader N) :
    ¬ resetNeeded N (__itsdk_sigfox_resetNvmToFactory N s force).storage false := by
  obtain ⟨hb, _, ho, hse⟩ := nvm_layout_eqs N hfit
  by_cases h : resetNeeded N s force
  · rw [reset_taken N s force h]
    dsimp only
    have hread : storedHeader N
        (MCU_API_set_nv_mem N
          (SE_NVM_set N
            (_eeprom_write s (itsdk_sigfox_getSigfoxNvmOffset N).2
              (N.encodeHeader (freshHeader N)) N.sizeof_header)
            (se_nvm_default N.SFX_SE_NVMEM_BLOCK_SIZE))
          (List.replicate N.SFX_NVMEM_BLOCK_SIZE 0)) = freshHeader N := by
      unfold storedHeader MCU_API_set_nv_mem SE_NVM_set
      rw [eeprom_read_write_after _ _ _ _ _ _ (by rw [ho, hb]),
        eeprom_read_write_after _ _ _ _ _ _ (by rw [hse, hb]; omega),
        eeprom_read_write_same _ _ _ hlen, hrt]
    unfold resetNeeded
    rw [hread]
    simp [freshHeader]
  · rw [reset_skipped N s force h]
    dsimp only
    unfold resetNeeded at h ⊢
    intro h2
    rcases h2 with h2 | h2
    · exact absurd h2 (by decide)
    · exact h (Or.inr h2)

/-- C16: with storage in which a read returns the bytes last written and the two block writes
land at the offsets of `itsdk_sigfox_getNvmOffset` and `itsdk_sigfox_getSeNvmOffset`, after one
call of `__itsdk_sigfox_resetNvmToFactory`, from any storage content and with any `force`, a
second call with `force == false` takes the skipped path: its only call is the header read, it
writes nothing and the storage stays as the first call left it. On an all-zero area whose
header does not decode to the magic, the first call does reset. -/
theorem C16_reset_idempotent (N : NvmConsts) (s : Storage) (force : Bool)
    (hfit : N.fits32)
    (hlen : (N.encodeHeader (freshHeader N)).length = N.sizeof_header)
    (hrt : N.decodeHeader (N.encodeHeader (freshHeader N)) = freshHeader N) :
    (__itsdk_sigfox_resetNvmToFactory N
        (__itsdk_sigfox_resetNvmToFactory N s force).storage false).trace
      = [NvmEvent._eeprom_read (itsdk_sigfox_getSigfoxNvmOffset N).2 N.sizeof_header] ∧
    (__itsdk_sigfox_resetNvmToFactory N
        (__itsdk_sigfox_resetNvmToFactory N s force).storage false).trace.filter
          NvmEvent.isWrite = [] ∧
    (__itsdk_sigfox_resetNvmToFactory N
        (__itsdk_sigfox_resetNvmToFactory N s force).storage false).storage
      = (__itsdk_sigfox_resetNvmToFactory N s force).storage ∧
    ((storedHeader N zeroStorage).magic ≠ N.ITSDK_SIGFOX_NVM_MAGIC →
      (__itsdk_sigfox_resetNvmToFactory N zeroStorage false).trace.filter NvmEvent.isWrite
        ≠ []) := by
  have hskip := reset_skipped N _ false (storedHeader_after_reset N s force hfit hlen hrt)
  refine ⟨?_, ?_, ?_, ?_⟩
  · rw [hskip]
  · rw [hskip]
    rfl
  · rw [hskip]
  · intro hm
    rw [reset_taken N zeroStorage false (Or.inr (Or.inl hm))]
    simp [NvmEvent.isWrite]

/-- Instance of C16 on the sample configuration and a zeroed area: the first call resets, the
second one only reads. -/
theorem C16_reset_idempotent_witness :
    (__itsdk_sigfox_resetNvmToFactory sampleNvm
        (__itsdk_sigfox_resetNvmToFactory sampleNvm zeroStorage false).storage false).trace
      = [NvmEvent._eeprom_read (itsdk_sigfox_getSigfoxNvmOffset sampleNvm).2
          sampleNvm.sizeof_header] ∧
    (__itsdk_sigfox_resetNvmToFactory sampleNvm
        (__itsdk_sigfox_resetNvmToFactory sampleNvm zeroStorage false).storage
          false).trace.filter NvmEvent.isWrite = [] ∧
    (__itsdk_sigfox_resetNvmToFactory sampleNvm
        (__itsdk_sigfox_resetNvmToFactory sampleNvm zeroStorage false).storage false).storage
      = (__itsdk_sigfox_resetNvmToFactory sampleNvm zeroStorage false).storage ∧
    (__itsdk_sigfox_resetNvmToFactory sampleNvm zeroStorage false).trace.filter NvmEvent.isWrite
      ≠ [] :=
  have h := C16_reset_idempotent sampleNvm zeroStorage false (by decide) (by decide)
    (by decide)
  ⟨h.1, h.2.1, h.2.2.1, h.2.2.2 (by decide)⟩

/-! ## Sequence id -/

/-- Masking with `0x0FFF` keeps the low 12 bits. -/
theorem land_0x0FFF (x : Nat) : x &&& 0x0FFF = x % 4096 :=
  Nat.and_pow_two_sub_one_eq_mod x 12

/-- C18: for every 16-bit last sequence id `s` reported by the radio driver,
`itsdk_sigfox_getNextSeqId` yields `(s + 1) mod 4096`; the increment is not truncated to 16
bits before the mask, so `s == 65535` yields 0 as well; `s == 4095` yields 0 and the result is
always in `[0, 4095]`. The status is `SIGFOX_INIT_SUCESS`. -/
theorem C18_next_seq_id (s : Nat) (hs : s < 65536) :
    (itsdk_sigfox_getNextSeqId s).2 = (s + 1) % 4096 ∧
    (itsdk_sigfox_getNextSeqId s).2 ≤ 4095 ∧
    (itsdk_sigfox_getNextSeqId 4095).2 = 0 ∧
    (itsdk_sigfox_getNextSeqId s).1 = SIGFOX_INIT_SUCESS := by
  have h : ∀ t, t < 65536 → (itsdk_sigfox_getNextSeqId t).2 = (t + 1) % 4096 := by
    intro t ht
    unfold itsdk_sigfox_getNextSeqId
    dsimp only
    rw [land_0x0FFF]
    omega
  refine ⟨h s hs, ?_, ?_, rfl⟩
  · rw [h s hs]; omega
  · rw [h 4095 (by omega)]

/-- Instance of C18 at the two wrap-around points 4095 and 65535 and at 4094. -/
theorem C18_next_seq_id_witness :
    (itsdk_sigfox_getNextSeqId 4095).2 = (4095 + 1) % 4096 ∧
    (itsdk_sigfox_getNextSeqId 65535).2 = (65535 + 1) % 4096 ∧
    (itsdk_sigfox_getNextSeqId 4094).2 = (4094 + 1) % 4096 :=
  ⟨(C18_next_seq_id 4095 (by decide)).1, (C18_next_seq_id 65535 (by decide)).1,
   (C18_next_seq_id 4094 (by decide)).1⟩

/-! ## Out-of-band messages and validation order -/

/-- The power setter writes to the driver exactly when the power differs from
`current_power`, and leaves `current_power` equal to the power requested. -/
theorem setTxPower_effect (st : State) (power : Nat) :
    (itsdk_sigfox_setTxPower st power).trace
      = (if power = st.current_power then [] else [Event.sx1276_sigfox_setPower power]) ∧
    (itsdk_sigfox_setTxPower st power).st.current_power = power := by
  unfold itsdk_sigfox_setTxPower itsdk_sigfox_setTxPower_ext
  by_cases h : power = st.current_power
  · simp [h]
  · simp [h]

/-- Radio-driver calls made by resolving the speed and applying the power: the power write,
if any. -/
theorem power_step_radio (K : Consts) (E : Env) (st : State) (speed : Nat) (power : Int) :
    ((resolveSpeed K E st speed).trace
        ++ (itsdk_sigfox_setTxPower (resolveSpeed K E st speed).st
              (toUint8 (resolvePower K st power))).trace).filter Event.isRadioDriver
      = (if toUint8 (resolvePower K st power) = st.current_power then []
         else [Event.sx1276_sigfox_setPower (toUint8 (resolvePower K st power))]) ∧
    ((resolveSpeed K E st speed).trace
        ++ (itsdk_sigfox_setTxPower (resolveSpeed K E st speed).st
              (toUint8 (resolvePower K st power))).trace).filter Event.isProtocolStack = [] ∧
    (itsdk_sigfox_setTxPower (resolveSpeed K E st speed).st
        (toUint8 (resolvePower K st power))).st.current_power
      = toUint8 (resolvePower K st power) := by
  have hcp : (resolveSpeed K E st speed).st.current_power = st.current_power := by
    rw [resolveSpeed_st]
  obtain ⟨ht, hp⟩ := setTxPower_effect (resolveSpeed K E st speed).st
    (toUint8 (resolvePower K st power))
  refine ⟨?_, ?_, hp⟩
  · rw [List.filter_append, resolveSpeed_filter K E st speed Event.isRadioDriver
      (fun _ _ => rfl), ht, hcp]
    split_ifs <;> rfl
  · rw [List.filter_append, resolveSpeed_filter K E st speed Event.isProtocolStack
      (fun _ _ => rfl), setTxPower_filter _ _ Event.isProtocolStack (fun _ => rfl)]
    rfl

/-- Shape of `itsdk_sigfox_sendOob` for the kind `SIGFOX_OOB_SERVICE`. -/
theorem sendOob_service (K : Consts) (E : Env) (st : State) (speed : Nat) (power : Int) :
    (itsdk_sigfox_sendOob K E st K.SIGFOX_OOB_SERVICE speed power).trace
      = (resolveSpeed K E st speed).trace
        ++ (itsdk_sigfox_setTxPower (resolveSpeed K E st speed).st
              (toUint8 (resolvePower K st power))).trace
        ++ [Event.SIGFOX_API_send_outofband K.SFX_OOB_SERVICE] ∧
    (itsdk_sigfox_sendOob K E st K.SIGFOX_OOB_SERVICE speed power).ret
      = (if E.SIGFOX_API_send_outofband K.SFX_OOB_SERVICE % 256 = K.SFX_ERR_NONE
          then SIGFOX_TRANSMIT_SUCESS else SIGFOX_TXRX_ERROR) := by
  have hm : ∀ x : Nat, x % 65536 % 256 = x % 256 := fun x => by omega
  unfold itsdk_sigfox_sendOob
  simp [itsdk_sigfox_setTxSpeed, land_0xFF, hm]

/-- Shape of `itsdk_sigfox_sendOob` for the kind `SIGFOX_OOB_RC_SYNC`. -/
theorem sendOob_rc_sync (K : Consts) (E : Env) (st : State) (speed : Nat) (power : Int)
    (hne : K.SIGFOX_OOB_SERVICE ≠ K.SIGFOX_OOB_RC_SYNC) :
    (itsdk_sigfox_sendOob K E st K.SIGFOX_OOB_RC_SYNC speed power).trace
      = (resolveSpeed K E st speed).trace
        ++ (itsdk_sigfox_setTxPower (resolveSpeed K E st speed).st
              (toUint8 (resolvePower K st power))).trace
        ++ [Event.SIGFOX_API_send_outofband K.SFX_OOB_RC_SYNC] ∧
    (itsdk_sigfox_sendOob K E st K.SIGFOX_OOB_RC_SYNC speed power).ret
      = (if E.SIGFOX_API_send_outofband K.SFX_OOB_RC_SYNC % 256 = K.SFX_ERR_NONE
          then SIGFOX_TRANSMIT_SUCESS else SIGFOX_TXRX_ERROR) := by
  have hm : ∀ x : Nat, x % 65536 % 256 = x % 256 := fun x => by omega
  have hne' : ¬ K.SIGFOX_OOB_RC_SYNC = K.SIGFOX_OOB_SERVICE := fun h => hne h.symm
  unfold itsdk_sigfox_sendOob
  simp [itsdk_sigfox_setTxSpeed, land_0xFF, hm, hne']

/-- Shape of `itsdk_sigfox_sendOob` for a kind that is neither of the two. -/
theorem sendOob_other (K : Consts) (E : Env) (st : State) (oobType : Nat) (speed : Nat)
    (power : Int) (h1 : oobType ≠ K.SIGFOX_OOB_SERVICE) (h2 : oobType ≠ K.SIGFOX_OOB_RC_SYNC) :
    (itsdk_sigfox_sendOob K E st oobType speed power).trace
      = (resolveSpeed K E st speed).trace
        ++ (itsdk_sigfox_setTxPower (resolveSpeed K E st speed).st
              (toUint8 (resolvePower K st power))).trace
        ++ [Event.ITSDK_ERROR_REPORT K.ITSDK_ERROR_SIGFOX_OOB_NOTSUPPORTED (oobType % 65536)] ∧
    (itsdk_sigfox_sendOob K E st oobType speed power).ret
      = (if 0 = K.SFX_ERR_NONE then SIGFOX_TRANSMIT_SUCESS else SIGFOX_TXRX_ERROR) ∧
    (itsdk_sigfox_sendOob K E st oobType speed power).st
      = (itsdk_sigfox_setTxPower (resolveSpeed K E st speed).st
              (toUint8 (resolvePower K st power))).st := by
  unfold itsdk_sigfox_sendOob
  simp [itsdk_sigfox_setTxSpeed, h1, h2]

/-- C19, as stated, fails: for the kind `SIGFOX_OOB_SERVICE`, the status word `0x0100`
returned by the out-of-band primitive is not the no-error code, yet the result is
`SIGFOX_TRANSMIT_SUCESS`, because only `ret & 0xFF` is inspected; and for the unrecognised
kind 7 the result is `SIGFOX_TRANSMIT_SUCESS` too, `ret` having kept its initial value 0. -/
theorem C19_oob_counterexample :
    (sampleEnv 0x0100).SIGFOX_API_send_outofband sampleConsts.SFX_OOB_SERVICE = 0x0100 ∧
    0x0100 ≠ sampleConsts.SFX_ERR_NONE ∧
    (itsdk_sigfox_sendOob sampleConsts (sampleEnv 0x0100) zeroState
        sampleConsts.SIGFOX_OOB_SERVICE 100 14).ret = SIGFOX_TRANSMIT_SUCESS ∧
    7 ≠ sampleConsts.SIGFOX_OOB_SERVICE ∧ 7 ≠ sampleConsts.SIGFOX_OOB_RC_SYNC ∧
    (itsdk_sigfox_sendOob sampleConsts (sampleEnv 0x0100) zeroState 7 100 14).ret
      = SIGFOX_TRANSMIT_SUCESS := by
  refine ⟨rfl, by decide, ?_, by decide, by decide, ?_⟩
  · rw [(sendOob_service sampleConsts (sampleEnv 0x0100) zeroState 100 14).2]
    decide
  · rw [(sendOob_other sampleConsts (sampleEnv 0x0100) zeroState 7 100 14
      (by decide) (by decide)).2.1]
    decide

/-- C19 (amended): for the kinds `SIGFOX_OOB_SERVICE` and `SIGFOX_OOB_RC_SYNC`,
`itsdk_sigfox_sendOob` makes exactly one protocol-stack call, the out-of-band primitive with
the corresponding kind, and returns `SIGFOX_TRANSMIT_SUCESS` when the low byte `c & 0xFF` of
the primitive's status word is the no-error code and `SIGFOX_TXRX_ERROR` otherwise; for any
other kind it reports `ITSDK_ERROR_SIGFOX_OOB_NOTSUPPORTED` with that kind and makes no
protocol-stack call. -/
theorem C19_oob_dispatch (K : Consts) (E : Env) (st : State) (oobType : Nat) (speed : Nat)
    (power : Int) (hne : K.SIGFOX_OOB_SERVICE ≠ K.SIGFOX_OOB_RC_SYNC) :
    (oobType = K.SIGFOX_OOB_SERVICE →
      (itsdk_sigfox_sendOob K E st oobType speed power).trace.filter Event.isProtocolStack
        = [Event.SIGFOX_API_send_outofband K.SFX_OOB_SERVICE] ∧
      (E.SIGFOX_API_send_outofband K.SFX_OOB_SERVICE % 256 = K.SFX_ERR_NONE →
        (itsdk_sigfox_sendOob K E st oobType speed power).ret = SIGFOX_TRANSMIT_SUCESS) ∧
      (E.SIGFOX_API_send_outofband K.SFX_OOB_SERVICE % 256 ≠ K.SFX_ERR_NONE →
        (itsdk_sigfox_sendOob K E st oobType speed power).ret = SIGFOX_TXRX_ERROR)) ∧
    (oobType = K.SIGFOX_OOB_RC_SYNC →
      (itsdk_sigfox_sendOob K E st oobType speed power).trace.filter Event.isProtocolStack
        = [Event.SIGFOX_API_send_outofband K.SFX_OOB_RC_SYNC] ∧
      (E.SIGFOX_API_send_outofband K.SFX_OOB_RC_SYNC % 256 = K.SFX_ERR_NONE →
        (itsdk_sigfox_sendOob K E st oobType speed power).ret = SIGFOX_TRANSMIT_SUCESS) ∧
      (E.SIGFOX_API_send_outofband K.SFX_OOB_RC_SYNC % 256 ≠ K.SFX_ERR_NONE →
        (itsdk_sigfox_sendOob K E st oobType speed power).ret = SIGFOX_TXRX_ERROR)) ∧
    (oobType ≠ K.SIGFOX_OOB_SERVICE → oobType ≠ K.SIGFOX_OOB_RC_SYNC →
      Event.ITSDK_ERROR_REPORT K.ITSDK_ERROR_SIGFOX_OOB_NOTSUPPORTED (oobType % 65536)
        ∈ (itsdk_sigfox_sendOob K E st oobType speed power).trace ∧
      (itsdk_sigfox_sendOob K E st oobType speed power).trace.filter Event.isProtocolStack
        = []) := by
  have hps := (power_step_radio K E st speed power).2.1
  refine ⟨?_, ?_, ?_⟩
  · intro hk
    subst hk
    obtain ⟨ht, hr⟩ := sendOob_service K E st speed power
    refine ⟨?_, ?_, ?_⟩
    · rw [ht, List.filter_append, hps]
      rfl
    · intro hc
      rw [hr, if_pos hc]
    · intro hc
      rw [hr, if_neg hc]
  · intro hk
    subst hk
    obtain ⟨ht, hr⟩ := sendOob_rc_sync K E st speed power hne
    refine ⟨?_, ?_, ?_⟩
    · rw [ht, List.filter_append, hps]
      rfl
    · intro hc
      rw [hr, if_pos hc]
    · intro hc
      rw [hr, if_neg hc]
  · intro h1 h2
    obtain ⟨ht, _, _⟩ := sendOob_other K E st oobType speed power h1 h2
    constructor
    · rw [ht]
      simp
    · rw [ht, List.filter_append, hps]
      rfl

/-- Instance of the amended C19: a service message answered `0x0100`, and the kind 7. -/
theorem C19_oob_dispatch_witness :
    (itsdk_sigfox_sendOob sampleConsts (sampleEnv 0x0100) zeroState
        sampleConsts.SIGFOX_OOB_SERVICE 100 14).trace.filter Event.isProtocolStack
      = [Event.SIGFOX_API_send_outofband sampleConsts.SFX_OOB_SERVICE] ∧
    (itsdk_sigfox_sendOob sampleConsts (sampleEnv 0x0100) zeroState
        sampleConsts.SIGFOX_OOB_SERVICE 100 14).ret = SIGFOX_TRANSMIT_SUCESS ∧
    (itsdk_sigfox_sendOob sampleConsts (sampleEnv 0x0100) zeroState 7 100 14).trace.filter
        Event.isProtocolStack = [] :=
  ⟨((C19_oob_dispatch sampleConsts (sampleEnv 0x0100) zeroState
      sampleConsts.SIGFOX_OOB_SERVICE 100 14 (by decide)).1 rfl).1,
   ((C19_oob_dispatch sampleConsts (sampleEnv 0x0100) zeroState
      sampleConsts.SIGFOX_OOB_SERVICE 100 14 (by decide)).1 rfl).2.1 (by decide),
   ((C19_oob_dispatch sampleConsts (sampleEnv 0x0100) zeroState 7 100 14 (by decide)).2.2
      (by decide) (by decide)).2⟩

/-- Shape of `itsdk_sigfox_continuousModeStart` when the resolved speed is neither of the two
supported ones. -/
theorem continuousModeStart_reject (K : Consts) (E : Env) (st : State) (frequency : Nat)
    (speed : Nat) (power : Int)
    (h1 : (resolveSpeed K E st speed).ret ≠ K.SIGFOX_SPEED_100)
    (h2 : (resolveSpeed K E st speed).ret ≠ K.SIGFOX_SPEED_600) :
    (itsdk_sigfox_continuousModeStart K E st frequency speed power).ret
      = SIGFOX_INIT_PARAMSERR ∧
    (itsdk_sigfox_continuousModeStart K E st frequency speed power).trace
      = (resolveSpeed K E st speed).trace
        ++ (itsdk_sigfox_setTxPower (resolveSpeed K E st speed).st
              (toUint8 (resolvePower K st power))).trace ∧
    (itsdk_sigfox_continuousModeStart K E st frequency speed power).st
      = (itsdk_sigfox_setTxPower (resolveSpeed K E st speed).st
              (toUint8 (resolvePower K st power))).st := by
  unfold itsdk_sigfox_continuousModeStart
  dsimp only
  rw [if_neg h1, if_neg h2]
  exact ⟨rfl, rfl, rfl⟩

/-- C20, as stated, fails: on the zero-valued globals (`current_power == 0`),
`itsdk_sigfox_continuousModeStart` with speed 50 and power 20 returns
`SIGFOX_INIT_PARAMSERR` after having written power 20 to the radio driver and stored it in
`current_power`; `itsdk_sigfox_sendOob` with the unrecognised kind 7 and power 20 writes the
radio power before it reports the kind. -/
theorem C20_power_written_before_rejection_counterexample :
    zeroState.current_power = 0 ∧
    (itsdk_sigfox_continuousModeStart sampleConsts (sampleEnv 0) zeroState 868130000 50 20).ret
      = SIGFOX_INIT_PARAMSERR ∧
    (itsdk_sigfox_continuousModeStart sampleConsts (sampleEnv 0) zeroState 868130000 50
        20).trace = [Event.sx1276_sigfox_setPower 20] ∧
    (itsdk_sigfox_continuousModeStart sampleConsts (sampleEnv 0) zeroState 868130000 50
        20).st.current_power = 20 ∧
    (itsdk_sigfox_sendOob sampleConsts (sampleEnv 0) zeroState 7 100 20).trace
      = [Event.sx1276_sigfox_setPower 20,
         Event.ITSDK_ERROR_REPORT sampleConsts.ITSDK_ERROR_SIGFOX_OOB_NOTSUPPORTED 7] ∧
    (itsdk_sigfox_sendOob sampleConsts (sampleEnv 0) zeroState 7 100 20).st.current_power
      = 20 := by
  obtain ⟨c1, c2, c3⟩ := continuousModeStart_reject sampleConsts (sampleEnv 0) zeroState
    868130000 50 20 (by decide) (by decide)
  obtain ⟨o1, _, o3⟩ := sendOob_other sampleConsts (sampleEnv 0) zeroState 7 100 20
    (by decide) (by decide)
  refine ⟨rfl, c1, ?_, ?_, ?_, ?_⟩
  · rw [c2]; decide
  · rw [c3]; decide
  · rw [o1]; decide
  · rw [o3]; decide

/-- C20 (amended): `itsdk_sigfox_setRcSyncPeriod` with `numOfFrame > 4096` returns
`SIGFOX_INIT_PARAMSERR` with no call and unchanged globals, and forwards every value up to
4096; a request refused by `itsdk_sigfox_sendFrame` (length, ack without buffer, encryption
flag) or by `itsdk_sigfox_sendBit` (ack without buffer) causes no radio-driver call, no
protocol-stack call and no change of `current_power`. `itsdk_sigfox_continuousModeStart` with
a speed that resolves to neither `SIGFOX_SPEED_100` nor `SIGFOX_SPEED_600` returns
`SIGFOX_INIT_PARAMSERR`, and `itsdk_sigfox_sendOob` with an unrecognised kind reports it, both
without any protocol-stack call but after the power has been applied: the resolved power is
written to the radio driver exactly when it differs from `current_power`, and it is the new
`current_power`. -/
theorem C20_validation_order (K : Consts) (E : Env) (st : State) (buf : List Nat)
    (len rep : Nat) (speed : Nat) (power : Int) (encrypt : Nat) (ack : Bool) (dwn : Option Nat)
    (bitValue : Bool) (oobType : Nat) (frequency : Nat) (numOfFrame : Nat) :
    ((4096 < numOfFrame →
        (itsdk_sigfox_setRcSyncPeriod st numOfFrame).ret = SIGFOX_INIT_PARAMSERR ∧
        (itsdk_sigfox_setRcSyncPeriod st numOfFrame).trace = [] ∧
        (itsdk_sigfox_setRcSyncPeriod st numOfFrame).st = st) ∧
      (numOfFrame ≤ 4096 →
        (itsdk_sigfox_setRcSyncPeriod st numOfFrame).ret = SIGFOX_INIT_SUCESS ∧
        (itsdk_sigfox_setRcSyncPeriod st numOfFrame).trace
          = [Event.SIGFOX_API_set_rc_sync_period numOfFrame])) ∧
    ((12 < len ∨ (ack = true ∧ dwn = none) ∨
        encryptFlagSet K encrypt ≠ K.encryptionConfigured) →
      ((itsdk_sigfox_sendFrame K E st buf len rep speed power encrypt ack dwn).ret
          = SIGFOX_ERROR_PARAMS ∨
        (itsdk_sigfox_sendFrame K E st buf len rep speed power encrypt ack dwn).ret
          = SIGFOX_TXRX_ERROR) ∧
      (itsdk_sigfox_sendFrame K E st buf len rep speed power encrypt ack dwn).trace.filter
          Event.isHardware = [] ∧
      (itsdk_sigfox_sendFrame K E st buf len rep speed power encrypt ack dwn).st.current_power
          = st.current_power) ∧
    ((ack = true ∧ dwn = none) →
      (itsdk_sigfox_sendBit K E st bitValue rep speed power ack dwn).ret
          = SIGFOX_ERROR_PARAMS ∧
      (itsdk_sigfox_sendBit K E st bitValue rep speed power ack dwn).trace.filter
          Event.isHardware = [] ∧
      (itsdk_sigfox_sendBit K E st bitValue rep speed power ack dwn).st.current_power
          = st.current_power) ∧
    ((resolveSpeed K E st speed).ret ≠ K.SIGFOX_SPEED_100 →
      (resolveSpeed K E st speed).ret ≠ K.SIGFOX_SPEED_600 →
      (itsdk_sigfox_continuousModeStart K E st frequency speed power).ret
          = SIGFOX_INIT_PARAMSERR ∧
      (itsdk_sigfox_continuousModeStart K E st frequency speed power).trace.filter
          Event.isProtocolStack = [] ∧
      (itsdk_sigfox_continuousModeStart K E st frequency speed power).trace.filter
          Event.isRadioDriver
        = (if toUint8 (resolvePower K st power) = st.current_power then []
           else [Event.sx1276_sigfox_setPower (toUint8 (resolvePower K st power))]) ∧
      (itsdk_sigfox_continuousModeStart K E st frequency speed power).st.current_power
        = toUint8 (resolvePower K st power)) ∧
    (oobType ≠ K.SIGFOX_OOB_SERVICE → oobType ≠ K.SIGFOX_OOB_RC_SYNC →
      Event.ITSDK_ERROR_REPORT K.ITSDK_ERROR_SIGFOX_OOB_NOTSUPPORTED (oobType % 65536)
        ∈ (itsdk_sigfox_sendOob K E st oobType speed power).trace ∧
      (itsdk_sigfox_sendOob K E st oobType speed power).trace.filter Event.isProtocolStack
        = [] ∧
      (itsdk_sigfox_sendOob K E st oobType speed power).trace.filter Event.isRadioDriver
        = (if toUint8 (resolvePower K st power) = st.current_power then []
           else [Event.sx1276_sigfox_setPower (toUint8 (resolvePower K st power))]) ∧
      (itsdk_sigfox_sendOob K E st oobType speed power).st.current_power
        = toUint8 (resolvePower K st power)) := by
  have hs : (resolveSpeed K E st speed).st.current_power = st.current_power := by
    rw [resolveSpeed_st]
  have hsf := resolveSpeed_filter K E st speed Event.isHardware (fun _ _ => rfl)
  obtain ⟨hrd, hps, hcp⟩ := power_step_radio K E st speed power
  refine ⟨⟨?_, ?_⟩, ?_, ?_, ?_, ?_⟩
  · intro h
    simp [itsdk_sigfox_setRcSyncPeriod, h]
  · intro h
    have h' : ¬ 4096 < numOfFrame := by omega
    simp [itsdk_sigfox_setRcSyncPeriod, h']
  · intro hrej
    rcases Nat.lt_or_ge 12 len with hl | hl
    · obtain ⟨h1, h2, h3⟩ :=
        sendFrame_len_reject K E st buf len rep speed power encrypt ack dwn hl
      rw [h1, h2, h3]
      exact ⟨Or.inl rfl, rfl, rfl⟩
    · by_cases ha : ack = true ∧ dwn = none
      · obtain ⟨ha1, ha2⟩ := ha
        subst ha1
        subst ha2
        obtain ⟨h1, h2, h3⟩ := sendFrame_ack_reject K E st buf len rep speed power encrypt hl
        rw [h1, h2, h3]
        exact ⟨Or.inl rfl, hsf, hs⟩
      · have hack : (ack && dwn.isNone) = false := by
          cases ack <;> cases dwn <;> simp_all
        have henc : encryptFlagSet K encrypt ≠ K.encryptionConfigured := by
          rcases hrej with h | h | h
          · omega
          · exact absurd h ha
          · exact h
        obtain ⟨h1, h2, e, he, h3⟩ :=
          sendFrame_encrypt_mismatch K E st buf len rep speed power encrypt ack dwn hl hack henc
        refine ⟨Or.inr h1, ?_, ?_⟩
        · rw [h3, List.filter_append, hsf]
          simp [he]
        · rw [h2, hs]
  · rintro ⟨ha1, ha2⟩
    subst ha1
    subst ha2
    obtain ⟨h1, h2, h3⟩ := sendBit_ack_reject K E st bitValue rep speed power
    rw [h1, h2, h3]
    exact ⟨rfl, hsf, hs⟩
  · intro h1 h2
    obtain ⟨c1, c2, c3⟩ := continuousModeStart_reject K E st frequency speed power h1 h2
    rw [c1, c2, c3]
    exact ⟨rfl, hps, hrd, hcp⟩
  · intro h1 h2
    obtain ⟨o1, _, o3⟩ := sendOob_other K E st oobType speed power h1 h2
    rw [o1, o3]
    refine ⟨by simp, ?_, ?_, hcp⟩
    · rw [List.filter_append, hps]
      rfl
    · rw [List.filter_append, hrd]
      split_ifs <;> rfl

/-- Instance of the amended C20: speed 50 with power 20 on the zero-valued globals, and a
sync period of 4097 frames. -/
theorem C20_validation_order_witness :
    ((itsdk_sigfox_setRcSyncPeriod zeroState 4097).ret = SIGFOX_INIT_PARAMSERR ∧
      (itsdk_sigfox_setRcSyncPeriod zeroState 4097).trace = [] ∧
      (itsdk_sigfox_setRcSyncPeriod zeroState 4097).st = zeroState) ∧
    ((itsdk_sigfox_continuousModeStart sampleConsts (sampleEnv 0) zeroState 868130000 50
          20).ret = SIGFOX_INIT_PARAMSERR ∧
      (itsdk_sigfox_continuousModeStart sampleConsts (sampleEnv 0) zeroState 868130000 50
          20).trace.filter Event.isProtocolStack = [] ∧
      (itsdk_sigfox_continuousModeStart sampleConsts (sampleEnv 0) zeroState 868130000 50
          20).trace.filter Event.isRadioDriver
        = (if toUint8 (resolvePower sampleConsts zeroState 20) = zeroState.current_power
           then []
           else [Event.sx1276_sigfox_setPower
                  (toUint8 (resolvePower sampleConsts zeroState 20))]) ∧
      (itsdk_sigfox_continuousModeStart sampleConsts (sampleEnv 0) zeroState 868130000 50
          20).st.current_power = toUint8 (resolvePower sampleConsts zeroState 20)) :=
  ⟨(C20_validation_order sampleConsts (sampleEnv 0) zeroState [] 0 0 50 20 0 false none
      false 0 868130000 4097).1.1 (by decide),
   (C20_validation_order sampleConsts (sampleEnv 0) zeroState [] 0 0 50 20 0 false none
      false 0 868130000 4097).2.2.2.1 (by decide) (by decide)⟩

/-! ## Power applied by the transmit operations -/

/-- A `uint8_t` survives the conversion to `int8_t` and back. -/
theorem toUint8_toInt8 (n : Nat) (h : n < 256) : toUint8 (toInt8 n) = n := by
  unfold toUint8 toInt8
  split_ifs <;> omega

/-- The `uint8_t` handed to the power setter is the resolved power. -/
theorem toUint8_resolvePower (K : Consts) (st : State) (power : Int)
    (h : st.current_power < 256) :
    toUint8 (resolvePower K st power) = resolvedPower K st power := by
  unfold resolvePower resolvedPower
  split_ifs
  · exact toUint8_toInt8 _ h
  · rfl

/-- Globals and radio-driver calls of `itsdk_sigfox_sendOob`, for every kind. -/
theorem sendOob_power (K : Consts) (E : Env) (st : State) (oobType : Nat) (speed : Nat)
    (power : Int) :
    (itsdk_sigfox_sendOob K E st oobType speed power).st.current_power
      = toUint8 (resolvePower K st power) ∧
    (itsdk_sigfox_sendOob K E st oobType speed power).trace.filter Event.isRadioDriver
      = (if toUint8 (resolvePower K st power) = st.current_power then []
         else [Event.sx1276_sigfox_setPower (toUint8 (resolvePower K st power))]) := by
  obtain ⟨hrd, _, hcp⟩ := power_step_radio K E st speed power
  have hst : (itsdk_sigfox_sendOob K E st oobType speed power).st
      = (itsdk_sigfox_setTxPower (resolveSpeed K E st speed).st
              (toUint8 (resolvePower K st power))).st := rfl
  refine ⟨by rw [hst, hcp], ?_⟩
  by_cases h1 : oobType = K.SIGFOX_OOB_SERVICE
  · subst h1
    rw [(sendOob_service K E st speed power).1, List.filter_append, hrd]
    split_ifs <;> rfl
  · by_cases h2 : oobType = K.SIGFOX_OOB_RC_SYNC
    · subst h2
      rw [(sendOob_rc_sync K E st speed power (fun h => h1 h.symm)).1, List.filter_append, hrd]
      split_ifs <;> rfl
    · rw [(sendOob_other K E st oobType speed power h1 h2).1, List.filter_append, hrd]
      split_ifs <;> rfl

/-- C21: for every runtime state (with `current_power` a `uint8_t`) and every request that
passes the validation of `itsdk_sigfox_sendFrame` or `itsdk_sigfox_sendBit`, and for every
`itsdk_sigfox_sendOob` request, let `r` be `current_power` when the request's power is
`SIGFOX_POWER_DEFAULT` and the request's power converted to `uint8_t` otherwise (negative
values included). After the call `current_power == r`, and the radio-driver calls are a single
`sx1276_sigfox_setPower(r)` when `r` differs from the previous `current_power` and none when
it does not. In particular a request with the default sentinel never writes the radio power
and leaves `current_power` unchanged. -/
theorem C21_power_applied (K : Consts) (E : Env) (st : State) (buf : List Nat)
    (len rep : Nat) (speed : Nat) (power : Int) (encrypt : Nat) (ack : Bool) (dwn : Option Nat)
    (bitValue : Bool) (oobType : Nat) (hcp : st.current_power < 256) (hlen : len ≤ 12)
    (hack : ack = true → dwn.isSome = true)
    (henc : encryptFlagSet K encrypt = K.encryptionConfigured) :
    ((itsdk_sigfox_sendFrame K E st buf len rep speed power encrypt ack dwn).st.current_power
        = resolvedPower K st power ∧
      (itsdk_sigfox_sendFrame K E st buf len rep speed power encrypt ack dwn).trace.filter
          Event.isRadioDriver
        = (if resolvedPower K st power = st.current_power then []
           else [Event.sx1276_sigfox_setPower (resolvedPower K st power)])) ∧
    ((itsdk_sigfox_sendBit K E st bitValue rep speed power ack dwn).st.current_power
        = resolvedPower K st power ∧
      (itsdk_sigfox_sendBit K E st bitValue rep speed power ack dwn).trace.filter
          Event.isRadioDriver
        = (if resolvedPower K st power = st.current_power then []
           else [Event.sx1276_sigfox_setPower (resolvedPower K st power)])) ∧
    ((itsdk_sigfox_sendOob K E st oobType speed power).st.current_power
        = resolvedPower K st power ∧
      (itsdk_sigfox_sendOob K E st oobType speed power).trace.filter Event.isRadioDriver
        = (if resolvedPower K st power = st.current_power then []
           else [Event.sx1276_sigfox_setPower (resolvedPower K st power)])) ∧
    (power = K.SIGFOX_POWER_DEFAULT →
      resolvedPower K st power = st.current_power ∧
      (itsdk_sigfox_sendFrame K E st buf len rep speed power encrypt ack dwn).trace.filter
          Event.isRadioDriver = [] ∧
      (itsdk_sigfox_sendBit K E st bitValue rep speed power ack dwn).trace.filter
          Event.isRadioDriver = [] ∧
      (itsdk_sigfox_sendOob K E st oobType speed power).trace.filter Event.isRadioDriver
          = []) := by
  have h2 : (ack && dwn.isNone) = false := by
    cases ack <;> cases dwn <;> simp_all
  have hr := toUint8_resolvePower K st power hcp
  obtain ⟨hrd, _, hnew⟩ := power_step_radio K E st speed power
  rw [hr] at hrd hnew
  have hframe :
      (itsdk_sigfox_sendFrame K E st buf len rep speed power encrypt ack dwn).trace.filter
          Event.isRadioDriver
        = (if resolvedPower K st power = st.current_power then []
           else [Event.sx1276_sigfox_setPower (resolvedPower K st power)]) := by
    rw [sendFrame_dispatch_trace K E st buf len rep speed power encrypt ack dwn hlen h2 henc,
      hr, List.filter_append, hrd]
    split_ifs <;> rfl
  have hbit :
      (itsdk_sigfox_sendBit K E st bitValue rep speed power ack dwn).trace.filter
          Event.isRadioDriver
        = (if resolvedPower K st power = st.current_power then []
           else [Event.sx1276_sigfox_setPower (resolvedPower K st power)]) := by
    rw [sendBit_dispatch_trace K E st bitValue rep speed power ack dwn h2,
      hr, List.filter_append, hrd]
    split_ifs <;> rfl
  obtain ⟨ho1, ho2⟩ := sendOob_power K E st oobType speed power
  rw [hr] at ho1 ho2
  refine ⟨⟨?_, hframe⟩, ⟨?_, hbit⟩, ⟨ho1, ho2⟩, ?_⟩
  · rw [sendFrame_dispatch_st K E st buf len rep speed power encrypt ack dwn hlen h2 henc,
      hr, hnew]
  · rw [sendBit_dispatch_st K E st bitValue rep speed power ack dwn h2, hr, hnew]
  · intro hd
    have hsame : resolvedPower K st power = st.current_power := by
      unfold resolvedPower
      rw [if_pos hd]
    refine ⟨hsame, ?_, ?_, ?_⟩
    · rw [hframe, if_pos hsame]
    · rw [hbit, if_pos hsame]
    · rw [ho2, if_pos hsame]

/-- Instance of C21: with `current_power == 14`, the request power `-2` is applied as 254 by
a frame, a bit and a service message. -/
theorem C21_power_applied_witness :
    ((itsdk_sigfox_sendFrame sampleConsts (sampleEnv 0) { zeroState with current_power := 14 }
          [1, 2, 3] 3 0 100 (-2) 0 false none).st.current_power
        = resolvedPower sampleConsts { zeroState with current_power := 14 } (-2) ∧
      (itsdk_sigfox_sendFrame sampleConsts (sampleEnv 0) { zeroState with current_power := 14 }
          [1, 2, 3] 3 0 100 (-2) 0 false none).trace.filter Event.isRadioDriver
        = (if resolvedPower sampleConsts { zeroState with current_power := 14 } (-2)
              = ({ zeroState with current_power := 14 } : State).current_power then []
           else [Event.sx1276_sigfox_setPower
                  (resolvedPower sampleConsts { zeroState with current_power := 14 } (-2))])) ∧
    resolvedPower sampleConsts { zeroState with current_power := 14 } (-2) = 254 ∧
    resolvedPower sampleConsts { zeroState with current_power := 14 } (-1) = 14 :=
  ⟨(C21_power_applied sampleConsts (sampleEnv 0) { zeroState with current_power := 14 }
      [1, 2, 3] 3 0 100 (-2) 0 false none true 0 (by decide) (by decide) (by decide)
      (by decide)).1, by decide, by decide⟩

end Sigfox
